import Mathlib

/-!
Resource objects of the virtio-gpu driver (`drivers/gpu/drm/virtio/virtgpu_object.c`)

A shallow embedding of the resource-object lifecycle of the virtio-gpu guest
driver: the handle allocator (`virtio_gpu_resource_id_get` / `_put`), the
backing-memory attacher (`virtio_gpu_object_shmem_init`), the creation
orchestrator (`virtio_gpu_object_create`) and the destruction coordinator
(`virtio_gpu_free_object`, `virtio_gpu_cleanup_object`).

Conventions.

* C `int` / `uint32_t` values are integers with explicit wrap-around
  (`% 2 ^ 32`); the `atomic_t` counter is held as its 32-bit pattern.
* Every call into a collaborator (buffer framework, DMA layer, transport,
  reservation arrays, index pool) is appended to a ghost `trace` kept in the
  device state, so that ordering and exactly-once properties can be stated.
  Acquisitions are logged when they succeed.
* The outcome of each fallible collaborator call is an input (`Env`).
-/

namespace VirtioGpu

/-! ## Data model -/

/-- One `struct scatterlist` entry, reduced to the values the driver reads:
`sg_phys(sg)`, `sg->length`, `sg_dma_address(sg)` and `sg_dma_len(sg)`. -/
structure Scatterlist where
  phys : Nat
  length : Nat
  dma_address : Nat
  dma_length : Nat
  deriving DecidableEq

/-- The fields of `struct sg_table`: the entry list, the number of mapped
entries `nents` and the number of original entries `orig_nents`. -/
structure SgTable where
  sgl : List Scatterlist
  nents : Nat
  orig_nents : Nat
  deriving DecidableEq

/-- The wire record `struct virtio_gpu_mem_entry` with fields
`__le64 addr; __le32 length; __le32 padding;`, each field held as the bytes
it occupies in memory, lowest address first. -/
structure MemEntry where
  addr : List Nat
  length : List Nat
  padding : List Nat
  deriving DecidableEq

/-- Commands handed to the transport collaborator. -/
inductive Cmd where
  | create_2d (resource_id : Nat) (objs : Bool) (fence : Bool)
  | create_3d (resource_id : Nat) (objs : Bool) (fence : Bool)
  | unref (resource_id : Nat)
  | attach (resource_id : Nat) (ents : List (Option MemEntry)) (nents : Nat)
  deriving DecidableEq

/-- Ghost log entries: one per call into a collaborator (an acquisition is
logged when it succeeds) and one per call of `virtio_gpu_resource_id_put`. -/
inductive Ev where
  | shmem_create (size : Nat)
  | shmem_free_object
  | ida_alloc (idx : Nat)
  | ida_free (idx : Nat)
  | resource_id_put (id : Nat)
  | array_alloc
  | array_add_obj
  | array_lock_resv
  | array_put_free
  | cmd (c : Cmd)
  | notify
  | pin
  | unpin
  | get_sg_table
  | dma_map
  | dma_unmap
  | sg_free_table
  | kfree_pages
  | kvmalloc_array (n : Nat)
  deriving DecidableEq

/-- The device state the file touches: the module parameter
`virtio_gpu_virglrenderer_workaround` (`virglhack`), the function-static
`seqno` counter (its 32-bit pattern), `vgdev->resource_ida` as the list of
allocated indices,
`virtio_has_dma_quirk(vgdev->vdev)`, and the ghost trace. -/
structure Device where
  workaround : Bool
  seqno : Nat
  resource_ida : List Nat
  dma_quirk : Bool
  trace : List Ev
  deriving DecidableEq

/-- A `struct virtio_gpu_object_shmem`: `funcs == &virtio_gpu_shmem_funcs`,
`hw_res_handle`, `created`, `dumb`, `pages`, `mapped`, the pin count
(`pages_use_count` of the shmem base object) and whether the buffer has been
given back with `drm_gem_shmem_free_object`. -/
structure Obj where
  is_shmem_funcs : Bool
  hw_res_handle : Nat
  created : Bool
  dumb : Bool
  pages : Option SgTable
  mapped : Nat
  pin_count : Nat
  freed : Bool
  deriving DecidableEq

/-- Append one entry to the ghost trace. -/
def Device.log (vgdev : Device) (e : Ev) : Device :=
  { vgdev with trace := vgdev.trace ++ [e] }

/-! ## Machine integers -/

/-- Conversion of a C `int` to `uint32_t`. -/
def to_u32 (x : Int) : Nat := (x % 4294967296).toNat

/-- The kernel's `atomic_inc_return` on the 32-bit pattern of an `atomic_t`:
increment the counter (wrapping) and return the new value. -/
def atomic_inc_return (v : Nat) : Nat := (v + 1) % 4294967296

/-- The `uint32_t` value of `id - 1`. -/
def u32_dec (id : Nat) : Nat := if id = 0 then 4294967295 else id - 1

def ENOMEM : Int := 12
def EINVAL : Int := 22
def ENOSPC : Int := 28

/-! ## Index pool -/

/-- Search upwards from index `i`, for at most `fuel` steps, for an index that
is not in the pool. -/
def first_free_from (ida : List Nat) : Nat → Nat → Option Nat
  | 0, _ => none
  | fuel + 1, i => if i ∈ ida then first_free_from ida fuel (i + 1) else some i

/-- Smallest index that is not in the pool. A pool of `n` entries always has a
free index among `0, …, n`. -/
def first_free (ida : List Nat) : Option Nat := first_free_from ida (ida.length + 1) 0

/-- Modelled from the spec: `ida_alloc` of the index-allocation pool, which is
not in this file. Smallest-free-index semantics over the indices
`0 … INT_MAX`; fails with `-ENOMEM` when the pool cannot get memory
(`gfp_ok = false`) and with `-ENOSPC` when every index is taken. Returns the
index (or negative error) and the new pool. -/
def ida_alloc (gfp_ok : Bool) (ida : List Nat) : Int × List Nat :=
  if gfp_ok then
    match first_free ida with
    | some i => if i < 2147483648 then ((i : Int), i :: ida) else (-ENOSPC, ida)
    | none => (-ENOSPC, ida)
  else (-ENOMEM, ida)

/-- Modelled from the spec: `ida_free` of the index-allocation pool, which is
not in this file. Returns the index to the pool. -/
def ida_free (ida : List Nat) (id : Nat) : List Nat :=
  ida.filter (fun i => decide (i ≠ id))

/-! ## Handle allocator -/

/-- Source function `virtio_gpu_resource_id_get` (lines 34–56): returns
`(ret, *resid, vgdev)`; `*resid` is `none` when nothing was written. -/
def virtio_gpu_resource_id_get (gfp_ok : Bool) (vgdev : Device) :
    Int × Option Nat × Device :=
  if vgdev.workaround then
    let handle := atomic_inc_return vgdev.seqno
    (0, some ((handle + 1) % 4294967296), { vgdev with seqno := handle })
  else
    let r := ida_alloc gfp_ok vgdev.resource_ida
    let handle := r.1
    if handle < 0 then
      (handle, none, vgdev)
    else
      (0, some (to_u32 (handle + 1)),
        { vgdev with resource_ida := r.2, trace := vgdev.trace ++ [Ev.ida_alloc handle.toNat] })

/-- Source function `virtio_gpu_resource_id_put` (lines 58–63); the index
`id - 1` is computed in `uint32_t`. -/
def virtio_gpu_resource_id_put (vgdev : Device) (id : Nat) : Device :=
  let vgdev := vgdev.log (Ev.resource_id_put id)
  if !vgdev.workaround then
    { vgdev with resource_ida := ida_free vgdev.resource_ida (u32_dec id),
                 trace := vgdev.trace ++ [Ev.ida_free (u32_dec id)] }
  else vgdev

/-! ### Sequences of allocator calls -/

/-- A call on the handle allocator. -/
inductive Op where
  | acquire (gfp_ok : Bool)
  | release (id : Nat)
  deriving DecidableEq

/-- The allocator together with the bookkeeping of a client: the handles it
holds, the handles it has given back, and every handle it was ever handed (in
order, oldest first). -/
structure AllocState where
  dev : Device
  held : List Nat
  released : List Nat
  returned : List Nat
  deriving DecidableEq

/-- Run one call. -/
def AllocState.step (s : AllocState) : Op → AllocState
  | Op.acquire gfp_ok =>
    match virtio_gpu_resource_id_get gfp_ok s.dev with
    | (_, some h, d) => { s with dev := d, held := h :: s.held, returned := s.returned ++ [h] }
    | (_, none, d) => { s with dev := d }
  | Op.release id =>
    { s with dev := virtio_gpu_resource_id_put s.dev id,
             held := s.held.erase id, released := id :: s.released }

/-- Run a sequence of calls, oldest first. -/
def AllocState.run (s : AllocState) (ops : List Op) : AllocState :=
  ops.foldl AllocState.step s

/-- Only held handles are released: checked call by call along the run. -/
def AllocState.releases_held (s : AllocState) : List Op → Bool
  | [] => true
  | Op.acquire g :: ops => (s.step (Op.acquire g)).releases_held ops
  | Op.release id :: ops => decide (id ∈ s.held) && (s.step (Op.release id)).releases_held ops

/-- The allocator at start-up: counter 0, empty pool, nothing handed out. -/
def AllocState.init (workaround : Bool) : AllocState :=
  { dev := { workaround := workaround, seqno := 0, resource_ida := [],
             dma_quirk := false, trace := [] },
    held := [], released := [], returned := [] }

/-- What holds of the reclaiming strategy after every run that releases only
held handles: the pool holds exactly the indices `h - 1` of the held handles
`h`, which are distinct and lie in `1 … 2 ^ 31`; every held or released handle
was handed out earlier; and once a handle has been handed out, handle 1 is
either held or has been released. -/
def ReclaimInv (s : AllocState) : Prop :=
  s.dev.workaround = false ∧ s.held.Nodup ∧ (∀ h ∈ s.held, 1 ≤ h ∧ h ≤ 2147483648)
    ∧ (∀ i, i ∈ s.dev.resource_ida ↔ i + 1 ∈ s.held)
    ∧ (∀ h ∈ s.held, h ∈ s.returned) ∧ (∀ h ∈ s.released, h ∈ s.returned)
    ∧ (s.returned ≠ [] → 1 ∈ s.held ∨ 1 ∈ s.released)

/-- Number of `acquire` calls in a sequence. -/
def acquires (ops : List Op) : Nat :=
  ops.countP (fun o => match o with | Op.acquire _ => true | Op.release _ => false)

/-! ## Collaborators -/

/-- The outcomes of the fallible collaborator calls made during one
`virtio_gpu_object_create`: `drm_gem_shmem_create` (`some e` is `ERR_PTR(e)`),
the index pool's memory allocation, `virtio_gpu_array_alloc`,
`virtio_gpu_array_lock_resv`, `drm_gem_shmem_pin`,
`drm_gem_shmem_get_sg_table`, `dma_map_sgtable` (its return value and, when it
is 0, the device-visible segments `(address, length)` it produced) and
`kvmalloc_array`. -/
structure Env where
  shmem_create_err : Option Int
  gfp_ok : Bool
  array_alloc_ok : Bool
  lock_resv_ret : Int
  pin_ret : Int
  sg_table : Option SgTable
  dma_map_ret : Int
  dma_segs : List (Nat × Nat)
  kvmalloc_ok : Bool
  deriving DecidableEq

/-- The fields of `struct virtio_gpu_object_params` read here. -/
structure Params where
  size : Nat
  dumb : Bool
  virgl : Bool
  deriving DecidableEq

def PAGE_SIZE : Nat := 4096

/-- The kernel's `roundup(x, y)` on `unsigned long`. -/
def roundup (x y : Nat) : Nat :=
  ((x + (y - 1)) % 18446744073709551616 / y) * y % 18446744073709551616

/-- Source function `virtio_gpu_create_object` (lines 123–137): the zeroed
object with its `funcs` set. -/
def virtio_gpu_create_object : Obj :=
  { is_shmem_funcs := true, hw_res_handle := 0, created := false, dumb := false,
    pages := none, mapped := 0, pin_count := 0, freed := false }

/-- Source function `virtio_gpu_is_shmem` (lines 118–121). -/
def virtio_gpu_is_shmem (bo : Obj) : Bool := bo.is_shmem_funcs

/-- Modelled from the spec: `allocate(size) -> Buffer` of the buffer-backing
collaborator (`drm_gem_shmem_create`, not in this file); it builds the object
with `virtio_gpu_create_object`. -/
def drm_gem_shmem_create (err : Option Int) (vgdev : Device) (size : Nat) :
    Except Int (Device × Obj) :=
  match err with
  | some e => Except.error e
  | none => Except.ok (vgdev.log (Ev.shmem_create size), virtio_gpu_create_object)

/-- Modelled from the spec: `free(Buffer)` of the buffer-backing collaborator
(`drm_gem_shmem_free_object`, not in this file). -/
def drm_gem_shmem_free_object (vgdev : Device) (bo : Obj) : Device × Obj :=
  (vgdev.log Ev.shmem_free_object, { bo with freed := true })

/-- Modelled from the spec: `pin(Buffer) -> Error?` of the buffer-backing
collaborator (`drm_gem_shmem_pin`, not in this file): a negative return is a
failure and pins nothing, otherwise the pin count goes up by one. -/
def drm_gem_shmem_pin (ret : Int) (vgdev : Device) (bo : Obj) : Int × Device × Obj :=
  if ret < 0 then (ret, vgdev, bo)
  else (ret, vgdev.log Ev.pin, { bo with pin_count := bo.pin_count + 1 })

/-- Modelled from the spec: `unpin(Buffer)` of the buffer-backing collaborator
(`drm_gem_shmem_unpin`, not in this file). -/
def drm_gem_shmem_unpin (vgdev : Device) (bo : Obj) : Device × Obj :=
  (vgdev.log Ev.unpin, { bo with pin_count := bo.pin_count - 1 })

/-- Modelled from the spec: `get_sg_table(Buffer) -> Table | null` of the
buffer-backing collaborator (`drm_gem_shmem_get_sg_table`, not in this
file). -/
def drm_gem_shmem_get_sg_table (tbl : Option SgTable) (vgdev : Device) :
    Option SgTable × Device :=
  match tbl with
  | some t => (some t, vgdev.log Ev.get_sg_table)
  | none => (none, vgdev)

/-- Store the mapped segments in the leading scatterlist entries. -/
def write_dma : List Scatterlist → List (Nat × Nat) → List Scatterlist
  | sg :: sgl, seg :: segs =>
    { sg with dma_address := seg.1, dma_length := seg.2 } :: write_dma sgl segs
  | sgl, [] => sgl
  | [], _ :: _ => []

/-- Modelled from the spec: the device mapping of the table
(`dma_map_sgtable`, not in this file): on a non-zero return nothing is mapped;
on 0 the table's `nents` is the number of device-visible segments, whose
addresses and lengths are stored in the leading entries. -/
def dma_map_sgtable (ret : Int) (segs : List (Nat × Nat)) (vgdev : Device) (sgt : SgTable) :
    Int × Device × SgTable :=
  if ret ≠ 0 then (ret, vgdev, sgt)
  else (0, vgdev.log Ev.dma_map,
        { sgt with nents := segs.length, sgl := write_dma sgt.sgl segs })

/-- Modelled from the spec: `send_create_2d` of the transport collaborator
(`virtio_gpu_cmd_create_resource`, not in this file); issuing the command
marks the object `created`. -/
def virtio_gpu_cmd_create_resource (vgdev : Device) (bo : Obj) (objs fence : Bool) :
    Device × Obj :=
  (vgdev.log (Ev.cmd (Cmd.create_2d bo.hw_res_handle objs fence)), { bo with created := true })

/-- Modelled from the spec: `send_create_3d` of the transport collaborator
(`virtio_gpu_cmd_resource_create_3d`, not in this file); issuing the command
marks the object `created`. -/
def virtio_gpu_cmd_resource_create_3d (vgdev : Device) (bo : Obj) (objs fence : Bool) :
    Device × Obj :=
  (vgdev.log (Ev.cmd (Cmd.create_3d bo.hw_res_handle objs fence)), { bo with created := true })

/-- Modelled from the spec: `send_unref(handle)` of the transport collaborator
(`virtio_gpu_cmd_unref_resource`, not in this file). -/
def virtio_gpu_cmd_unref_resource (vgdev : Device) (bo : Obj) : Device :=
  vgdev.log (Ev.cmd (Cmd.unref bo.hw_res_handle))

/-- Modelled from the spec: `notify()` of the transport collaborator
(`virtio_gpu_notify`, not in this file). -/
def virtio_gpu_notify (vgdev : Device) : Device := vgdev.log Ev.notify

/-- Modelled from the spec: the follow-up association that binds the entry
array to the host resource (`virtio_gpu_object_attach`, not in this file). -/
def virtio_gpu_object_attach (vgdev : Device) (bo : Obj) (ents : List (Option MemEntry))
    (nents : Nat) : Device :=
  vgdev.log (Ev.cmd (Cmd.attach bo.hw_res_handle ents nents))

/-! ## Wire format -/

/-- The `n` bytes of `x` in little-endian order. -/
def le_bytes (n x : Nat) : List Nat := (List.range n).map (fun k => x / 256 ^ k % 256)

def cpu_to_le64 (x : Nat) : List Nat := le_bytes 8 x
def cpu_to_le32 (x : Nat) : List Nat := le_bytes 4 x

/-- Value of a little-endian byte string. -/
def le_value : List Nat → Nat
  | [] => 0
  | b :: bs => b + 256 * le_value bs

/-- The 16 bytes of a record as sent to the host. -/
def MemEntry.wire (e : MemEntry) : List Nat := e.addr ++ e.length ++ e.padding

/-- Loop body at lines 185–187 (DMA API in use). -/
def ent_of_dma_sg (sg : Scatterlist) : MemEntry :=
  { addr := cpu_to_le64 sg.dma_address, length := cpu_to_le32 sg.dma_length,
    padding := cpu_to_le32 0 }

/-- Loop body at lines 191–193 (quirk mode). -/
def ent_of_sg (sg : Scatterlist) : MemEntry :=
  { addr := cpu_to_le64 sg.phys, length := cpu_to_le32 sg.length, padding := cpu_to_le32 0 }

/-- The loop `for_each_sg(sgl, sg, n, si) (*ents)[si] = body(sg)` run over the
entries it visits, starting at index `si`. -/
def fill_ents (body : Scatterlist → MemEntry) :
    List Scatterlist → Nat → List (Option MemEntry) → List (Option MemEntry)
  | [], _, ents => ents
  | sg :: rest, si, ents => fill_ents body rest (si + 1) (ents.set si (some (body sg)))

/-! ## Backing-memory attacher -/

/-- What `virtio_gpu_object_shmem_init` leaves behind: its return value, the
out-parameters `*ents` and `*nents` (`none` while never written; a slot of the
array is `none` until a record is stored in it), and the device and object. -/
structure InitResult where
  ret : Int
  ents : Option (List (Option MemEntry))
  nents : Option Nat
  vgdev : Device
  bo : Obj
  deriving DecidableEq

/-- Source function `virtio_gpu_object_shmem_init` (lines 139–198). -/
def virtio_gpu_object_shmem_init (env : Env) (vgdev : Device) (bo : Obj) : InitResult :=
  let use_dma_api := !vgdev.dma_quirk
  let p := drm_gem_shmem_pin env.pin_ret vgdev bo
  if p.1 < 0 then
    { ret := -EINVAL, ents := none, nents := none, vgdev := p.2.1, bo := p.2.2 }
  else
    let g := drm_gem_shmem_get_sg_table env.sg_table p.2.1
    let bo1 : Obj := { p.2.2 with pages := g.1 }
    match g.1 with
    | none =>
      let u := drm_gem_shmem_unpin g.2 bo1
      { ret := -EINVAL, ents := none, nents := none, vgdev := u.1, bo := u.2 }
    | some pages =>
      if use_dma_api then
        let m := dma_map_sgtable env.dma_map_ret env.dma_segs g.2 pages
        let bo2 : Obj := { bo1 with pages := some m.2.2 }
        if m.1 ≠ 0 then
          { ret := m.1, ents := none, nents := none, vgdev := m.2.1, bo := bo2 }
        else
          let bo3 : Obj := { bo2 with mapped := m.2.2.nents }
          let n := m.2.2.nents
          if env.kvmalloc_ok then
            { ret := 0,
              ents := some (fill_ents ent_of_dma_sg (m.2.2.sgl.take m.2.2.nents) 0
                        (List.replicate n none)),
              nents := some n, vgdev := m.2.1.log (Ev.kvmalloc_array n), bo := bo3 }
          else
            { ret := -ENOMEM, ents := none, nents := some n, vgdev := m.2.1, bo := bo3 }
      else
        let n := pages.orig_nents
        if env.kvmalloc_ok then
          { ret := 0,
            ents := some (fill_ents ent_of_sg (pages.sgl.take pages.orig_nents) 0
                      (List.replicate n none)),
            nents := some n, vgdev := g.2.log (Ev.kvmalloc_array n), bo := bo1 }
        else
          { ret := -ENOMEM, ents := none, nents := some n, vgdev := g.2, bo := bo1 }

/-! ## Destruction coordinator -/

/-- The block `if (shmem->pages) { … }` of `virtio_gpu_cleanup_object`
(lines 73–84): the teardown of the backing memory. -/
def shmem_teardown (vgdev : Device) (bo : Obj) : Device × Obj :=
  match bo.pages with
  | none => (vgdev, bo)
  | some _ =>
    let s : Device × Obj :=
      if bo.mapped ≠ 0 then (vgdev.log Ev.dma_unmap, { bo with mapped := 0 }) else (vgdev, bo)
    let d := (s.1.log Ev.sg_free_table).log Ev.kfree_pages
    drm_gem_shmem_unpin d { s.2 with pages := none }

/-- Source function `virtio_gpu_cleanup_object` (lines 65–88). -/
def virtio_gpu_cleanup_object (vgdev : Device) (bo : Obj) : Device × Obj :=
  let vgdev := virtio_gpu_resource_id_put vgdev bo.hw_res_handle
  if virtio_gpu_is_shmem bo then
    let t := shmem_teardown vgdev bo
    drm_gem_shmem_free_object t.1 t.2
  else (vgdev, bo)

/-- Source function `virtio_gpu_free_object` (lines 90–102). -/
def virtio_gpu_free_object (vgdev : Device) (bo : Obj) : Device × Obj :=
  if bo.created then
    let vgdev := virtio_gpu_cmd_unref_resource vgdev bo
    let vgdev := virtio_gpu_notify vgdev
    (vgdev, bo)
  else virtio_gpu_cleanup_object vgdev bo

/-- Modelled from the spec: the completion callback of the unref command (not
in this file), which "performs the actual cleanup". -/
def unref_completion (vgdev : Device) (bo : Obj) : Device × Obj :=
  virtio_gpu_cleanup_object vgdev bo

/-! ## Creation orchestrator -/

/-- What `virtio_gpu_object_create` leaves behind: its return value, `*bo_ptr`,
the object it allocated (whether or not it was handed to the caller; `none`
when allocation failed), the device and the updated `params`. -/
structure CreateResult where
  ret : Int
  bo_ptr : Option Obj
  bo : Option Obj
  vgdev : Device
  params : Params
  deriving DecidableEq

/-- Label `err_free_gem` of `virtio_gpu_object_create` (lines 261–263). -/
def create_err_free_gem (params : Params) (ret : Int) (vgdev : Device) (bo : Obj) :
    CreateResult :=
  let f := drm_gem_shmem_free_object vgdev bo
  { ret := ret, bo_ptr := none, bo := some f.2, vgdev := f.1, params := params }

/-- Label `err_put_id` of `virtio_gpu_object_create` (line 259, falling through
to `err_free_gem`). -/
def create_err_put_id (params : Params) (ret : Int) (vgdev : Device) (bo : Obj) :
    CreateResult :=
  create_err_free_gem params ret (virtio_gpu_resource_id_put vgdev bo.hw_res_handle) bo

/-- Label `err_put_objs` of `virtio_gpu_object_create` (line 257, falling
through to `err_put_id`). -/
def create_err_put_objs (params : Params) (ret : Int) (vgdev : Device) (bo : Obj) :
    CreateResult :=
  create_err_put_id params ret (vgdev.log Ev.array_put_free) bo

/-- The part of `virtio_gpu_object_create` before the host create command
(lines 212–236, `params` already rounded): either an error result, produced
through the error labels, or `(objs ≠ NULL, vgdev, bo)` with which the function
goes on. -/
def create_prologue (env : Env) (vgdev : Device) (params : Params) (fence : Bool) :
    Except CreateResult (Bool × Device × Obj) :=
  match drm_gem_shmem_create env.shmem_create_err vgdev params.size with
  | Except.error e =>
    Except.error { ret := e, bo_ptr := none, bo := none, vgdev := vgdev, params := params }
  | Except.ok (vgdev, bo) =>
    match virtio_gpu_resource_id_get env.gfp_ok vgdev with
    | (ret, resid, vgdev) =>
      let bo : Obj := match resid with
        | some h => { bo with hw_res_handle := h }
        | none => bo
      if ret < 0 then Except.error (create_err_free_gem params ret vgdev bo)
      else
        let bo : Obj := { bo with dumb := params.dumb }
        if fence then
          if !env.array_alloc_ok then Except.error (create_err_put_id params (-ENOMEM) vgdev bo)
          else
            let vgdev := (vgdev.log Ev.array_alloc).log Ev.array_add_obj
            if env.lock_resv_ret ≠ 0 then
              Except.error (create_err_put_objs params env.lock_resv_ret vgdev bo)
            else Except.ok (true, vgdev.log Ev.array_lock_resv, bo)
        else Except.ok (false, vgdev, bo)

/-- The part of `virtio_gpu_object_create` from the host create command on
(lines 238–255). -/
def create_epilogue (env : Env) (params : Params) (fence objs : Bool) (vgdev : Device)
    (bo : Obj) : CreateResult :=
  let c := if params.virgl then virtio_gpu_cmd_resource_create_3d vgdev bo objs fence
           else virtio_gpu_cmd_create_resource vgdev bo objs fence
  let i := virtio_gpu_object_shmem_init env c.1 c.2
  if i.ret ≠ 0 then
    let f := virtio_gpu_free_object i.vgdev i.bo
    { ret := i.ret, bo_ptr := none, bo := some f.2, vgdev := f.1, params := params }
  else
    let vgdev := virtio_gpu_object_attach i.vgdev i.bo (i.ents.getD []) (i.nents.getD 0)
    { ret := 0, bo_ptr := some i.bo, bo := some i.bo, vgdev := vgdev, params := params }

/-- Source function `virtio_gpu_object_create` (lines 200–264); `fence` tells
whether a fence was passed. -/
def virtio_gpu_object_create (env : Env) (vgdev : Device) (params : Params) (fence : Bool) :
    CreateResult :=
  let params := { params with size := roundup params.size PAGE_SIZE }
  match create_prologue env vgdev params fence with
  | Except.error r => r
  | Except.ok (objs, vgdev, bo) => create_epilogue env params fence objs vgdev bo

/-! ## Vocabulary for the statements -/

/-- Entries of the trace that are commands or notifications on the
transport. -/
def Ev.is_transport : Ev → Bool
  | Ev.cmd _ => true
  | Ev.notify => true
  | _ => false

/-- The host create command chosen by `params->virgl`. -/
def create_cmd (virgl : Bool) (h : Nat) (objs fence : Bool) : Cmd :=
  if virgl then Cmd.create_3d h objs fence else Cmd.create_2d h objs fence

/-- Trace of one handle release: the call, and under the reclaiming strategy
the return of index `id - 1` to the pool. -/
def put_events (workaround : Bool) (id : Nat) : List Ev :=
  Ev.resource_id_put id :: (if workaround then [] else [Ev.ida_free (u32_dec id)])

/-- Trace of the teardown of the backing memory, in order: unmap (only when a
mapping is active), free the table, unpin. Nothing when there is no table. -/
def teardown_events (bo : Obj) : List Ev :=
  match bo.pages with
  | none => []
  | some _ => (if bo.mapped ≠ 0 then [Ev.dma_unmap] else [])
      ++ [Ev.sg_free_table, Ev.kfree_pages, Ev.unpin]

/-- Trace of one cleanup: handle release, teardown, buffer free. -/
def cleanup_events (workaround : Bool) (bo : Obj) : List Ev :=
  put_events workaround bo.hw_res_handle
    ++ (if bo.is_shmem_funcs then teardown_events bo ++ [Ev.shmem_free_object] else [])

/-- The object as the teardown leaves it. -/
def torn_down (bo : Obj) : Obj :=
  match bo.pages with
  | none => bo
  | some _ => { bo with mapped := 0, pages := none, pin_count := bo.pin_count - 1 }

/-! ## Concrete inputs -/

def env_ok : Env :=
  { shmem_create_err := none, gfp_ok := true, array_alloc_ok := true, lock_resv_ret := 0,
    pin_ret := 0,
    sg_table := some { sgl := [⟨4096, 4096, 0, 0⟩, ⟨8192, 4096, 0, 0⟩], nents := 0,
                       orig_nents := 2 },
    dma_map_ret := 0, dma_segs := [(65536, 8192)], kvmalloc_ok := true }

def dev0 (workaround quirk : Bool) : Device :=
  { workaround := workaround, seqno := 0, resource_ida := [], dma_quirk := quirk, trace := [] }

/-- The wire records as the spec words them: one record per segment, in
order, over the mapped segments (device address and length) when the DMA API
is in use and over the original segments (physical address and length) in
quirk mode, each with a zero padding field. -/
def spec_wire_records (quirk : Bool) (tbl : SgTable) : List MemEntry :=
  if quirk then
    (tbl.sgl.take tbl.orig_nents).map
      (fun sg => { addr := le_bytes 8 sg.phys, length := le_bytes 4 sg.length,
                   padding := [0, 0, 0, 0] })
  else
    (tbl.sgl.take tbl.nents).map
      (fun sg => { addr := le_bytes 8 sg.dma_address, length := le_bytes 4 sg.dma_length,
                   padding := [0, 0, 0, 0] })

/-- Trace entries that are attach commands. -/
def Ev.is_attach : Ev → Bool
  | Ev.cmd (Cmd.attach _ _ _) => true
  | _ => false

/-- Trace entries that are entry-array allocations. -/
def Ev.is_kvmalloc : Ev → Bool
  | Ev.kvmalloc_array _ => true
  | _ => false

/-- Trace entries that are handle releases. -/
def Ev.is_put : Ev → Bool
  | Ev.resource_id_put _ => true
  | _ => false

/-- Trace of a prologue that reaches the host create command: buffer
allocation, handle acquisition, and with a fence the dependency set and its
reservation. -/
def prologue_events (workaround fence : Bool) (size h : Nat) : List Ev :=
  [Ev.shmem_create size] ++ (if workaround then [] else [Ev.ida_alloc (u32_dec h)])
    ++ (if fence then [Ev.array_alloc, Ev.array_add_obj, Ev.array_lock_resv] else [])

/-- Trace entries that are successful pins. -/
def Ev.is_pin : Ev → Bool
  | Ev.pin => true
  | _ => false

/-- Trace entries that are unpins. -/
def Ev.is_unpin : Ev → Bool
  | Ev.unpin => true
  | _ => false

/-- Trace entries that are tables obtained from the buffer abstraction. -/
def Ev.is_get_sg_table : Ev → Bool
  | Ev.get_sg_table => true
  | _ => false

/-- Trace entries that are table frees. -/
def Ev.is_sg_free_table : Ev → Bool
  | Ev.sg_free_table => true
  | _ => false

/-- Trace entries that are successful device mappings. -/
def Ev.is_dma_map : Ev → Bool
  | Ev.dma_map => true
  | _ => false

/-- Trace entries that are device unmappings. -/
def Ev.is_dma_unmap : Ev → Bool
  | Ev.dma_unmap => true
  | _ => false

/-- Trace entries that are buffer frees. -/
def Ev.is_shmem_free : Ev → Bool
  | Ev.shmem_free_object => true
  | _ => false

/-! ## Handle allocator: monotonic strategy -/

theorem mono_get (d : Device) (k : Nat) (g : Bool)
    (hw : d.workaround = true) (hk : d.seqno = k % 4294967296) :
    virtio_gpu_resource_id_get g d
      = (0, some ((k + 2) % 4294967296), { d with seqno := (k + 1) % 4294967296 }) := by
  have h1 : atomic_inc_return d.seqno = (k + 1) % 4294967296 := by
    unfold atomic_inc_return; omega
  have h2 : ((k + 1) % 4294967296 + 1) % 4294967296 = (k + 2) % 4294967296 := by omega
  unfold virtio_gpu_resource_id_get
  rw [if_pos hw, h1]
  simp only [h2]

theorem mono_step_acquire (s : AllocState) (k : Nat) (g : Bool)
    (hw : s.dev.workaround = true) (hk : s.dev.seqno = k % 4294967296) :
    s.step (Op.acquire g) =
          { s with dev := { s.dev with seqno := (k + 1) % 4294967296 },
                   held := ((k + 2) % 4294967296) :: s.held,
                   returned := s.returned ++ [(k + 2) % 4294967296] } := by
  simp only [AllocState.step, mono_get s.dev k g hw hk]

theorem mono_put (d : Device) (id : Nat) (hw : d.workaround = true) :
    virtio_gpu_resource_id_put d id = { d with trace := d.trace ++ [Ev.resource_id_put id] } := by
  simp only [virtio_gpu_resource_id_put, Device.log, hw, Bool.not_true, Bool.false_eq_true,
    if_false]

theorem acquires_cons_acquire (g : Bool) (ops : List Op) :
    acquires (Op.acquire g :: ops) = acquires ops + 1 := by
  simp only [acquires, List.countP_cons_of_pos]

theorem acquires_cons_release (id : Nat) (ops : List Op) :
    acquires (Op.release id :: ops) = acquires ops := by
  simp only [acquires, List.countP_cons, Bool.false_eq_true, if_false, Nat.add_zero]

/-- Under the monotonic strategy a run started after `k` increments of the
counter hands out `k + 2, k + 3, …` (modulo `2 ^ 32`), one per acquire, and
keeps the strategy. -/
theorem mono_run (ops : List Op) : ∀ (s : AllocState) (k : Nat),
    s.dev.workaround = true → s.dev.seqno = k % 4294967296 →
    (s.run ops).returned
        = s.returned ++ (List.range (acquires ops)).map (fun i => (k + i + 2) % 4294967296)
      ∧ (s.run ops).dev.workaround = true
      ∧ (s.run ops).dev.seqno = (k + acquires ops) % 4294967296
      ∧ (s.run ops).dev.resource_ida = s.dev.resource_ida := by
  induction ops with
  | nil =>
    intro s k hw hk
    refine ⟨?_, hw, hk, rfl⟩
    show s.returned = s.returned ++ List.map _ (List.range 0)
    rw [List.range_zero, List.map_nil, List.append_nil]
  | cons o ops ih =>
    intro s k hw hk
    cases o with
    | acquire g =>
      have hstep := mono_step_acquire s k g hw hk
      have h := ih (s.step (Op.acquire g)) (k + 1) (by rw [hstep]; exact hw) (by rw [hstep])
      have hrun : s.run (Op.acquire g :: ops) = (s.step (Op.acquire g)).run ops := rfl
      rw [hrun, acquires_cons_acquire]
      refine ⟨?_, h.2.1, ?_, ?_⟩
      · have e : (fun i => (k + 1 + i + 2) % 4294967296)
            = (fun i => (k + i + 2) % 4294967296) ∘ Nat.succ := by
          funext i
          show (k + 1 + i + 2) % 4294967296 = (k + (i + 1) + 2) % 4294967296
          rw [show k + 1 + i + 2 = k + (i + 1) + 2 by omega]
        rw [h.1, hstep, List.range_succ_eq_map, List.map_cons, List.map_map, ← e]
        show (s.returned ++ [(k + 2) % 4294967296]) ++ _
          = s.returned ++ ((k + 0 + 2) % 4294967296 :: _)
        rw [List.append_assoc, List.singleton_append, Nat.add_zero]
      · rw [h.2.2.1, show k + 1 + acquires ops = k + (acquires ops + 1) by omega]
      · rw [h.2.2.2, hstep]
    | release id =>
      have hd : (s.step (Op.release id)).dev =
          { s.dev with trace := s.dev.trace ++ [Ev.resource_id_put id] } :=
        mono_put s.dev id hw
      have hr : (s.step (Op.release id)).returned = s.returned := rfl
      have h := ih (s.step (Op.release id)) k (by rw [hd]; exact hw) (by rw [hd]; exact hk)
      have hrun : s.run (Op.release id :: ops) = (s.step (Op.release id)).run ops := rfl
      rw [hrun, acquires_cons_release]
      refine ⟨by rw [h.1, hr], h.2.1, h.2.2.1, ?_⟩
      rw [h.2.2.2, hd]

theorem run_append (s : AllocState) (a b : List Op) : s.run (a ++ b) = (s.run a).run b := by
  simp only [AllocState.run, List.foldl_append]

theorem acquires_replicate (n : Nat) (g : Bool) :
    acquires (List.replicate n (Op.acquire g)) = n := by
  induction n with
  | zero => rfl
  | succ n ih => rw [List.replicate_succ, acquires_cons_acquire, ih]

/-- The handles of a monotonic run from counter 0. -/
theorem mono_returned (ops : List Op) :
    ((AllocState.init true).run ops).returned
      = (List.range (acquires ops)).map (fun i => (i + 2) % 4294967296) := by
  have h := (mono_run ops (AllocState.init true) 0 rfl rfl).1
  rw [h]
  simp only [AllocState.init, List.nil_append, Nat.zero_add]

theorem mono_nodup (n : Nat) (hn : n ≤ 4294967296) :
    ((List.range n).map (fun i => (i + 2) % 4294967296)).Nodup := by
  apply List.Nodup.map_on _ (List.nodup_range n)
  intro a ha b hb hab
  rw [List.mem_range] at ha hb
  omega

/-- C3, counterexample: the counter is 32 bits wide, so in a run of
`2 ^ 32 + 1` acquires the last handle equals the first one (both are 2): the
handles of that run are not pairwise distinct. -/
theorem C3_counterexample_wrap :
    ((AllocState.init true).run (List.replicate 4294967297 (Op.acquire true))).returned[0]?
        = some 2
      ∧ ((AllocState.init true).run
          (List.replicate 4294967297 (Op.acquire true))).returned[4294967296]? = some 2
      ∧ ¬ ((AllocState.init true).run
          (List.replicate 4294967297 (Op.acquire true))).returned.Nodup := by
  rw [mono_returned, acquires_replicate]
  refine ⟨?_, ?_, ?_⟩
  · rw [List.getElem?_map, List.getElem?_range (by omega)]; rfl
  · rw [List.getElem?_map, List.getElem?_range (by omega)]; rfl
  · intro h
    have h0 : (0 : Nat) ∈ List.range 4294967297 := List.mem_range.2 (by omega)
    have h1 : (4294967296 : Nat) ∈ List.range 4294967297 := List.mem_range.2 (by omega)
    have := List.inj_on_of_nodup_map h h0 h1 (by rfl)
    omega

/-- C3 (amended): under the monotonic strategy, starting from counter 0, an
acquire returns the incremented counter plus one (in 32 bits) and a release
leaves the allocator as it is; in every sequence of calls with at most
`2 ^ 32` acquires the handles returned are `2, 3, …` in order, pairwise
distinct, and a handle that was returned and then released is not returned
by any later acquire. -/
theorem C3_monotonic_handles (ops : List Op) (hN : acquires ops ≤ 4294967296) :
    (∀ (g : Bool) (d : Device), d.workaround = true →
        virtio_gpu_resource_id_get g d
          = (0, some ((atomic_inc_return d.seqno + 1) % 4294967296),
              { d with seqno := atomic_inc_return d.seqno }))
      ∧ (∀ (d : Device) (id : Nat), d.workaround = true →
          virtio_gpu_resource_id_put d id
            = { d with trace := d.trace ++ [Ev.resource_id_put id] })
      ∧ ((AllocState.init true).run ops).returned
          = (List.range (acquires ops)).map (fun i => (i + 2) % 4294967296)
      ∧ ((AllocState.init true).run ops).returned.Nodup
      ∧ (∀ (pre post : List Op) (id : Nat), ops = pre ++ Op.release id :: post →
          id ∈ ((AllocState.init true).run pre).returned →
          ∃ later, ((AllocState.init true).run ops).returned
              = ((AllocState.init true).run pre).returned ++ later ∧ id ∉ later) := by
  have hnd : ((AllocState.init true).run ops).returned.Nodup := by
    rw [mono_returned]; exact mono_nodup _ hN
  refine ⟨?_, mono_put, mono_returned ops, hnd, ?_⟩
  · intro g d hd
    unfold virtio_gpu_resource_id_get
    rw [if_pos hd]
  · intro pre post id hops hid
    have hs := mono_run pre (AllocState.init true) 0 rfl rfl
    have h2 := mono_run (Op.release id :: post) ((AllocState.init true).run pre)
      (0 + acquires pre) hs.2.1 hs.2.2.1
    rw [← run_append, ← hops] at h2
    refine ⟨_, h2.1, ?_⟩
    intro hl
    rw [h2.1] at hnd
    exact (List.nodup_append.1 hnd).2.2 hid hl

/-- C3, the amended statement at a concrete run: acquire, release, acquire. -/
theorem C3_monotonic_handles_witness :
    acquires [Op.acquire true, Op.release 2, Op.acquire true] ≤ 4294967296
      ∧ ((AllocState.init true).run [Op.acquire true, Op.release 2, Op.acquire true]).returned
          = [2, 3] :=
  ⟨by decide,
   (C3_monotonic_handles [Op.acquire true, Op.release 2, Op.acquire true] (by decide)).2.2.1⟩

/-! ## Handle allocator: reclaiming strategy -/

theorem first_free_from_spec (ida : List Nat) : ∀ (fuel i r : Nat),
    first_free_from ida fuel i = some r →
    r ∉ ida ∧ i ≤ r ∧ ∀ j, i ≤ j → j < r → j ∈ ida := by
  intro fuel
  induction fuel with
  | zero => intro i r h; simp [first_free_from] at h
  | succ fuel ih =>
    intro i r h
    by_cases hi : i ∈ ida
    · simp only [first_free_from, hi, if_true] at h
      obtain ⟨h1, h2, h3⟩ := ih (i + 1) r h
      refine ⟨h1, by omega, ?_⟩
      intro j hj hjr
      by_cases hji : j = i
      · rw [hji]; exact hi
      · exact h3 j (by omega) hjr
    · simp only [first_free_from, hi, if_false, Option.some.injEq] at h
      subst h
      exact ⟨hi, le_refl _, fun j hj hjr => by omega⟩

/-- The pool model allocates the smallest free index. -/
theorem first_free_spec (ida : List Nat) (r : Nat) (h : first_free ida = some r) :
    r ∉ ida ∧ ∀ j, j < r → j ∈ ida := by
  obtain ⟨h1, _, h3⟩ := first_free_from_spec ida _ 0 r h
  exact ⟨h1, fun j hj => h3 j (Nat.zero_le _) hj⟩

/-- What `ida_alloc` returns: a negative error and the pool as it was, or the
smallest free index, at most `INT_MAX`, added to the pool. -/
theorem ida_alloc_cases (g : Bool) (ida : List Nat) :
    ((ida_alloc g ida).1 < 0 ∧ (ida_alloc g ida).2 = ida)
      ∨ ∃ i : Nat, ida_alloc g ida = ((i : Int), i :: ida) ∧ i < 2147483648
          ∧ i ∉ ida ∧ ∀ j, j < i → j ∈ ida := by
  unfold ida_alloc
  cases g with
  | false => left; simp [ENOMEM]
  | true =>
    simp only [if_true]
    cases hf : first_free ida with
    | none => left; simp [ENOSPC]
    | some i =>
      by_cases hi : i < 2147483648
      · right
        exact ⟨i, by simp [hi], hi, first_free_spec ida i hf⟩
      · left; simp [hi, ENOSPC]

/-- The two outcomes of an acquire under the reclaiming strategy. -/
theorem id_get_reclaim (g : Bool) (d : Device) (hw : d.workaround = false) :
    ((ida_alloc g d.resource_ida).1 < 0
        ∧ virtio_gpu_resource_id_get g d = ((ida_alloc g d.resource_ida).1, none, d))
      ∨ ∃ i : Nat, ida_alloc g d.resource_ida = ((i : Int), i :: d.resource_ida)
          ∧ i < 2147483648 ∧ i ∉ d.resource_ida ∧ (∀ j, j < i → j ∈ d.resource_ida)
          ∧ virtio_gpu_resource_id_get g d
              = (0, some (i + 1), { d with resource_ida := i :: d.resource_ida,
                                           trace := d.trace ++ [Ev.ida_alloc i] }) := by
  rcases ida_alloc_cases g d.resource_ida with ⟨h1, _⟩ | ⟨i, hi, hlt, hni, hmin⟩
  · left
    exact ⟨h1, by simp [virtio_gpu_resource_id_get, hw, h1]⟩
  · right
    refine ⟨i, hi, hlt, hni, hmin, ?_⟩
    have hu : to_u32 ((i : Int) + 1) = i + 1 := by unfold to_u32; omega
    have hneg : ¬ ((i : Int) < 0) := by omega
    simp [virtio_gpu_resource_id_get, hw, hi, hu, hneg]

/-- A release under the reclaiming strategy frees index `id - 1`. -/
theorem id_put_reclaim (d : Device) (id : Nat) (hw : d.workaround = false) (h1 : 1 ≤ id) :
    virtio_gpu_resource_id_put d id
      = { d with resource_ida := ida_free d.resource_ida (id - 1),
                 trace := d.trace ++ [Ev.resource_id_put id, Ev.ida_free (id - 1)] } := by
  have hidx : u32_dec id = id - 1 := by
    unfold u32_dec; rw [if_neg (by omega)]
  simp [virtio_gpu_resource_id_put, Device.log, hw, hidx]

theorem reclaim_inv_init : ReclaimInv (AllocState.init false) := by
  simp [ReclaimInv, AllocState.init]

theorem reclaim_inv_acquire (s : AllocState) (g : Bool) (hinv : ReclaimInv s) :
    ReclaimInv (s.step (Op.acquire g)) := by
  obtain ⟨hw, hnd, hrange, hpool, hheld, hrel, hone⟩ := hinv
  rcases id_get_reclaim g s.dev hw with ⟨_, hget⟩ | ⟨i, _, hlt, hni, hmin, hget⟩
  · have hstep : s.step (Op.acquire g) = s := by
      simp [AllocState.step, hget]
    rw [hstep]
    exact ⟨hw, hnd, hrange, hpool, hheld, hrel, hone⟩
  · have hstep : s.step (Op.acquire g) =
        { s with dev := { s.dev with resource_ida := i :: s.dev.resource_ida,
                                     trace := s.dev.trace ++ [Ev.ida_alloc i] },
                 held := (i + 1) :: s.held, returned := s.returned ++ [i + 1] } := by
      simp [AllocState.step, hget]
    rw [hstep]
    have hnh : i + 1 ∉ s.held := fun h => hni ((hpool i).2 h)
    refine ⟨hw, List.nodup_cons.2 ⟨hnh, hnd⟩, ?_, ?_, ?_, ?_, ?_⟩
    · intro h hh
      rcases List.mem_cons.1 hh with rfl | hh
      · omega
      · exact hrange h hh
    · intro j
      simp only [List.mem_cons, Nat.add_right_cancel_iff]
      rw [hpool j]
    · intro h hh
      rcases List.mem_cons.1 hh with rfl | hh
      · simp
      · exact List.mem_append_left _ (hheld h hh)
    · intro h hh
      exact List.mem_append_left _ (hrel h hh)
    · intro _
      by_cases hr : s.returned = []
      · have hheld0 : s.held = [] := by
          cases hl : s.held with
          | nil => rfl
          | cons a l =>
            have := hheld a (by rw [hl]; simp)
            rw [hr] at this
            simp at this
        have hi0 : i = 0 := by
          by_contra hne
          have := (hpool 0).1 (hmin 0 (by omega))
          rw [hheld0] at this
          simp at this
        left
        simp [hi0]
      · rcases hone hr with h | h
        · left; exact List.mem_cons_of_mem _ h
        · right; exact h

theorem reclaim_inv_release (s : AllocState) (id : Nat) (hinv : ReclaimInv s)
    (hid : id ∈ s.held) : ReclaimInv (s.step (Op.release id)) := by
  obtain ⟨hw, hnd, hrange, hpool, hheld, hrel, hone⟩ := hinv
  obtain ⟨h1, h2⟩ := hrange id hid
  have hstep : s.step (Op.release id) =
      { s with dev := { s.dev with resource_ida := ida_free s.dev.resource_ida (id - 1),
                                   trace := s.dev.trace
                                     ++ [Ev.resource_id_put id, Ev.ida_free (id - 1)] },
               held := s.held.erase id, released := id :: s.released } := by
    simp [AllocState.step, id_put_reclaim s.dev id hw h1]
  rw [hstep]
  refine ⟨hw, hnd.erase id, ?_, ?_, ?_, ?_, ?_⟩
  · intro h hh
    exact hrange h (List.mem_of_mem_erase hh)
  · intro j
    simp only [ida_free, List.mem_filter, decide_eq_true_eq, hnd.mem_erase_iff, hpool j]
    constructor
    · rintro ⟨hj, hne⟩; exact ⟨by omega, hj⟩
    · rintro ⟨hne, hj⟩; exact ⟨hj, by omega⟩
  · intro h hh
    exact hheld h (List.mem_of_mem_erase hh)
  · intro h hh
    rcases List.mem_cons.1 hh with rfl | hh
    · exact hheld _ hid
    · exact hrel h hh
  · intro hr
    rcases hone hr with h | h
    · by_cases hid1 : id = 1
      · right; simp [hid1]
      · left; exact (hnd.mem_erase_iff).2 ⟨fun h' => hid1 h'.symm, h⟩
    · right; exact List.mem_cons_of_mem _ h

theorem reclaim_inv_run (ops : List Op) : ∀ (s : AllocState), ReclaimInv s →
    s.releases_held ops = true → ReclaimInv (s.run ops) := by
  induction ops with
  | nil => intro s h _; exact h
  | cons o ops ih =>
    intro s hinv hv
    cases o with
    | acquire g =>
      exact ih _ (reclaim_inv_acquire s g hinv) (by simpa [AllocState.releases_held] using hv)
    | release id =>
      simp only [AllocState.releases_held, Bool.and_eq_true, decide_eq_true_eq] at hv
      exact ih _ (reclaim_inv_release s id hinv hv.1) hv.2

/-- C4: under the reclaiming strategy, in the state reached by any sequence of
calls that releases only held handles: an acquire either fails with the
pool's negative error, writing no handle and changing nothing, or returns
pool index + 1, which is not 0, fits 32 bits and is not currently held;
releasing a held handle `h` frees exactly index `h - 1`; the pool holds
exactly the indices of the held handles, so once every handle is released the
pool is empty and the next acquire returns handle 1, which has been released
before whenever a handle was ever handed out. -/
theorem C4_reclaiming_handles (ops : List Op)
    (hv : (AllocState.init false).releases_held ops = true) :
    (∀ g : Bool,
        ((ida_alloc g ((AllocState.init false).run ops).dev.resource_ida).1 < 0
          ∧ virtio_gpu_resource_id_get g ((AllocState.init false).run ops).dev
              = ((ida_alloc g ((AllocState.init false).run ops).dev.resource_ida).1, none,
                  ((AllocState.init false).run ops).dev))
        ∨ ∃ i : Nat,
            ida_alloc g ((AllocState.init false).run ops).dev.resource_ida
              = ((i : Int), i :: ((AllocState.init false).run ops).dev.resource_ida)
            ∧ (virtio_gpu_resource_id_get g ((AllocState.init false).run ops).dev).1 = 0
            ∧ (virtio_gpu_resource_id_get g ((AllocState.init false).run ops).dev).2.1
                = some (i + 1)
            ∧ (virtio_gpu_resource_id_get g
                  ((AllocState.init false).run ops).dev).2.2.resource_ida
                = i :: ((AllocState.init false).run ops).dev.resource_ida
            ∧ i + 1 ≠ 0 ∧ i + 1 < 4294967296
            ∧ i + 1 ∉ ((AllocState.init false).run ops).held)
      ∧ (∀ h ∈ ((AllocState.init false).run ops).held, ∀ i,
          i ∈ (virtio_gpu_resource_id_put
                ((AllocState.init false).run ops).dev h).resource_ida
            ↔ i ∈ ((AllocState.init false).run ops).dev.resource_ida ∧ i ≠ h - 1)
      ∧ (∀ i, i ∈ ((AllocState.init false).run ops).dev.resource_ida
            ↔ i + 1 ∈ ((AllocState.init false).run ops).held)
      ∧ (((AllocState.init false).run ops).held = [] →
          ((AllocState.init false).run ops).dev.resource_ida = []
            ∧ (virtio_gpu_resource_id_get true ((AllocState.init false).run ops).dev).2.1
                = some 1
            ∧ (((AllocState.init false).run ops).returned ≠ [] →
                1 ∈ ((AllocState.init false).run ops).released)) := by
  obtain ⟨hw, hnd, hrange, hpool, hheld, hrel, hone⟩ :=
    reclaim_inv_run ops (AllocState.init false) reclaim_inv_init hv
  generalize (AllocState.init false).run ops = S at *
  have hacq : ∀ g : Bool,
      ((ida_alloc g S.dev.resource_ida).1 < 0
          ∧ virtio_gpu_resource_id_get g S.dev = ((ida_alloc g S.dev.resource_ida).1, none, S.dev))
        ∨ ∃ i : Nat, ida_alloc g S.dev.resource_ida = ((i : Int), i :: S.dev.resource_ida)
            ∧ (virtio_gpu_resource_id_get g S.dev).1 = 0
            ∧ (virtio_gpu_resource_id_get g S.dev).2.1 = some (i + 1)
            ∧ (virtio_gpu_resource_id_get g S.dev).2.2.resource_ida = i :: S.dev.resource_ida
            ∧ i + 1 ≠ 0 ∧ i + 1 < 4294967296 ∧ i + 1 ∉ S.held := by
    intro g
    rcases id_get_reclaim g S.dev hw with h | ⟨i, hi, hlt, hni, _, hget⟩
    · exact Or.inl h
    · refine Or.inr ⟨i, hi, ?_, ?_, ?_, by omega, by omega, fun h => hni ((hpool i).2 h)⟩
      · rw [hget]
      · rw [hget]
      · rw [hget]
  refine ⟨hacq, ?_, hpool, ?_⟩
  · intro h hh i
    rw [id_put_reclaim S.dev h hw (hrange h hh).1]
    simp only [ida_free, List.mem_filter, decide_eq_true_eq]
  · intro h0
    have hida : S.dev.resource_ida = [] := by
      apply List.eq_nil_iff_forall_not_mem.2
      intro i hi
      have := (hpool i).1 hi
      rw [h0] at this
      exact List.not_mem_nil _ this
    refine ⟨hida, ?_, ?_⟩
    · rcases id_get_reclaim true S.dev hw with ⟨hneg, _⟩ | ⟨i, _, _, _, hmin, hget⟩
      · rw [hida] at hneg
        exact absurd hneg (by decide)
      · have hi0 : i = 0 := by
          by_contra hne
          have := hmin 0 (by omega)
          rw [hida] at this
          exact List.not_mem_nil _ this
        rw [hget, hi0]
    · intro hr
      rcases hone hr with h | h
      · rw [h0] at h; exact absurd h (List.not_mem_nil _)
      · exact h

/-- C4 at a concrete run: two handles acquired, both released; the pool is
empty again and the next acquire returns the released handle 1. -/
theorem C4_reclaiming_handles_witness :
    (AllocState.init false).releases_held
        [Op.acquire true, Op.acquire true, Op.release 1, Op.release 2] = true
      ∧ (virtio_gpu_resource_id_get true ((AllocState.init false).run
          [Op.acquire true, Op.acquire true, Op.release 1, Op.release 2]).dev).2.1 = some 1 :=
  ⟨by decide,
   ((C4_reclaiming_handles [Op.acquire true, Op.acquire true, Op.release 1, Op.release 2]
      (by decide)).2.2.2 (by decide)).2.1⟩

/-! ## Destruction coordinator -/

/-- The teardown block: its trace and the object it leaves. -/
theorem shmem_teardown_spec (vgdev : Device) (bo : Obj) :
    shmem_teardown vgdev bo
      = ({ vgdev with trace := vgdev.trace ++ teardown_events bo }, torn_down bo) := by
  unfold shmem_teardown teardown_events torn_down
  cases hp : bo.pages with
  | none => simp
  | some t =>
    by_cases hm : bo.mapped = 0
    · simp [hm, drm_gem_shmem_unpin, Device.log]
    · simp [hm, drm_gem_shmem_unpin, Device.log]

/-- The handle release: its trace and the pool it leaves. -/
theorem resource_id_put_spec (vgdev : Device) (id : Nat) :
    virtio_gpu_resource_id_put vgdev id
      = { vgdev with
            resource_ida := if vgdev.workaround then vgdev.resource_ida
                            else ida_free vgdev.resource_ida (u32_dec id),
            trace := vgdev.trace ++ put_events vgdev.workaround id } := by
  unfold virtio_gpu_resource_id_put put_events
  cases hw : vgdev.workaround <;> simp [Device.log, hw]

/-- The cleanup: its trace, the pool and the object it leaves. -/
theorem cleanup_object_spec (vgdev : Device) (bo : Obj) :
    virtio_gpu_cleanup_object vgdev bo
      = ({ vgdev with
            resource_ida := if vgdev.workaround then vgdev.resource_ida
                            else ida_free vgdev.resource_ida (u32_dec bo.hw_res_handle),
            trace := vgdev.trace ++ cleanup_events vgdev.workaround bo },
         if bo.is_shmem_funcs then { torn_down bo with freed := true } else bo) := by
  unfold virtio_gpu_cleanup_object cleanup_events
  rw [resource_id_put_spec]
  cases hs : bo.is_shmem_funcs with
  | false => simp [virtio_gpu_is_shmem, hs]
  | true =>
    simp [virtio_gpu_is_shmem, hs, shmem_teardown_spec, drm_gem_shmem_free_object, Device.log]

/-- No entry of a cleanup's trace is a transport command. -/
theorem cleanup_events_no_transport (w : Bool) (bo : Obj) :
    ∀ e ∈ cleanup_events w bo, e.is_transport = false := by
  have h : (cleanup_events w bo).all (fun e => !e.is_transport) = true := by
    unfold cleanup_events put_events teardown_events
    cases w <;> cases h1 : bo.is_shmem_funcs <;> cases h2 : bo.pages <;>
      by_cases hm : bo.mapped = 0 <;> simp [hm, Ev.is_transport]
  intro e he
  have := List.all_eq_true.1 h e he
  simpa using this

/-- Destroy of an object with `created` set: the unref command and a notify,
nothing else. -/
theorem free_object_created (vgdev : Device) (bo : Obj) (hc : bo.created = true) :
    virtio_gpu_free_object vgdev bo
      = ({ vgdev with trace := vgdev.trace
              ++ [Ev.cmd (Cmd.unref bo.hw_res_handle), Ev.notify] }, bo) := by
  simp [virtio_gpu_free_object, hc, virtio_gpu_cmd_unref_resource, virtio_gpu_notify,
    Device.log]

/-- C1: `virtio_gpu_free_object` on an object with `created` set only emits the
unref command for the object's handle followed by a notify: the handle
allocator, the object and its backing state are as before and nothing of the
cleanup is in the trace. On an object with `created` clear it is
`virtio_gpu_cleanup_object`, and what it adds to the trace holds no transport
command. -/
theorem C1_free_object (vgdev : Device) (bo : Obj) :
    (bo.created = true →
        virtio_gpu_free_object vgdev bo
          = ({ vgdev with trace := vgdev.trace
                  ++ [Ev.cmd (Cmd.unref bo.hw_res_handle), Ev.notify] }, bo))
      ∧ (bo.created = false →
          virtio_gpu_free_object vgdev bo = virtio_gpu_cleanup_object vgdev bo
            ∧ (virtio_gpu_free_object vgdev bo).1.trace
                = vgdev.trace ++ cleanup_events vgdev.workaround bo
            ∧ ∀ e ∈ cleanup_events vgdev.workaround bo, e.is_transport = false) := by
  constructor
  · intro hc
    exact free_object_created vgdev bo hc
  · intro hc
    have h : virtio_gpu_free_object vgdev bo = virtio_gpu_cleanup_object vgdev bo := by
      simp [virtio_gpu_free_object, hc]
    refine ⟨h, ?_, cleanup_events_no_transport _ _⟩
    rw [h, cleanup_object_spec]

/-- C1 at two concrete objects, one with `created` set and one without. -/
theorem C1_free_object_witness :
    virtio_gpu_free_object (dev0 false false)
        { virtio_gpu_create_object with hw_res_handle := 7, created := true }
      = ({ dev0 false false with trace := [Ev.cmd (Cmd.unref 7), Ev.notify] },
          { virtio_gpu_create_object with hw_res_handle := 7, created := true })
    ∧ (virtio_gpu_free_object (dev0 false false)
        { virtio_gpu_create_object with hw_res_handle := 7 }).1.trace
      = [Ev.resource_id_put 7, Ev.ida_free 6, Ev.shmem_free_object] :=
  ⟨(C1_free_object (dev0 false false)
      { virtio_gpu_create_object with hw_res_handle := 7, created := true }).1 rfl,
   ((C1_free_object (dev0 false false)
      { virtio_gpu_create_object with hw_res_handle := 7 }).2 rfl).2.1⟩

/-! ## Backing-memory attacher -/

/-- Attach, pin failure: `-EINVAL`, nothing changed. -/
theorem shmem_init_pin_fail (env : Env) (d : Device) (b : Obj) (hp : env.pin_ret < 0) :
    virtio_gpu_object_shmem_init env d b
      = { ret := -EINVAL, ents := none, nents := none, vgdev := d, bo := b } := by
  simp [virtio_gpu_object_shmem_init, drm_gem_shmem_pin, hp]

/-- Attach, no table: `-EINVAL`, the pin is undone. -/
theorem shmem_init_no_table (env : Env) (d : Device) (b : Obj) (hp : ¬ env.pin_ret < 0)
    (ht : env.sg_table = none) :
    virtio_gpu_object_shmem_init env d b
      = { ret := -EINVAL, ents := none, nents := none,
          vgdev := { d with trace := d.trace ++ [Ev.pin, Ev.unpin] },
          bo := { b with pages := none, pin_count := b.pin_count + 1 - 1 } } := by
  simp [virtio_gpu_object_shmem_init, drm_gem_shmem_pin, hp, ht, drm_gem_shmem_get_sg_table,
    drm_gem_shmem_unpin, Device.log]

/-- Attach, device mapping failure: the mapping's error, the table and the pin
stay. -/
theorem shmem_init_map_fail (env : Env) (d : Device) (b : Obj) (t : SgTable)
    (hp : ¬ env.pin_ret < 0) (ht : env.sg_table = some t) (hq : d.dma_quirk = false)
    (hm : env.dma_map_ret ≠ 0) :
    virtio_gpu_object_shmem_init env d b
      = { ret := env.dma_map_ret, ents := none, nents := none,
          vgdev := { d with trace := d.trace ++ [Ev.pin, Ev.get_sg_table] },
          bo := { b with pages := some t, pin_count := b.pin_count + 1 } } := by
  simp [virtio_gpu_object_shmem_init, drm_gem_shmem_pin, hp, ht, drm_gem_shmem_get_sg_table,
    dma_map_sgtable, hq, hm, Device.log]

/-- Attach with the DMA API, mapping done: the outcome by `kvmalloc_array`. -/
theorem shmem_init_dma (env : Env) (d : Device) (b : Obj) (t : SgTable)
    (hp : ¬ env.pin_ret < 0) (ht : env.sg_table = some t) (hq : d.dma_quirk = false)
    (hm : env.dma_map_ret = 0) :
    virtio_gpu_object_shmem_init env d b
      = if env.kvmalloc_ok then
          { ret := 0,
            ents := some (fill_ents ent_of_dma_sg
              ((write_dma t.sgl env.dma_segs).take env.dma_segs.length) 0
              (List.replicate env.dma_segs.length none)),
            nents := some env.dma_segs.length,
            vgdev := { d with trace := d.trace
              ++ [Ev.pin, Ev.get_sg_table, Ev.dma_map, Ev.kvmalloc_array env.dma_segs.length] },
            bo := { b with
              pages := some { t with nents := env.dma_segs.length,
                                     sgl := write_dma t.sgl env.dma_segs },
              mapped := env.dma_segs.length, pin_count := b.pin_count + 1 } }
        else
          { ret := -ENOMEM, ents := none, nents := some env.dma_segs.length,
            vgdev := { d with trace := d.trace ++ [Ev.pin, Ev.get_sg_table, Ev.dma_map] },
            bo := { b with
              pages := some { t with nents := env.dma_segs.length,
                                     sgl := write_dma t.sgl env.dma_segs },
              mapped := env.dma_segs.length, pin_count := b.pin_count + 1 } } := by
  cases hk : env.kvmalloc_ok <;>
    simp [virtio_gpu_object_shmem_init, drm_gem_shmem_pin, hp, ht, drm_gem_shmem_get_sg_table,
      dma_map_sgtable, hq, hm, hk, Device.log]

/-- Attach in quirk mode: the outcome by `kvmalloc_array`. -/
theorem shmem_init_quirk (env : Env) (d : Device) (b : Obj) (t : SgTable)
    (hp : ¬ env.pin_ret < 0) (ht : env.sg_table = some t) (hq : d.dma_quirk = true) :
    virtio_gpu_object_shmem_init env d b
      = if env.kvmalloc_ok then
          { ret := 0,
            ents := some (fill_ents ent_of_sg (t.sgl.take t.orig_nents) 0
              (List.replicate t.orig_nents none)),
            nents := some t.orig_nents,
            vgdev := { d with trace := d.trace
              ++ [Ev.pin, Ev.get_sg_table, Ev.kvmalloc_array t.orig_nents] },
            bo := { b with pages := some t, pin_count := b.pin_count + 1 } }
        else
          { ret := -ENOMEM, ents := none, nents := some t.orig_nents,
            vgdev := { d with trace := d.trace ++ [Ev.pin, Ev.get_sg_table] },
            bo := { b with pages := some t, pin_count := b.pin_count + 1 } } := by
  cases hk : env.kvmalloc_ok <;>
    simp [virtio_gpu_object_shmem_init, drm_gem_shmem_pin, hp, ht, drm_gem_shmem_get_sg_table,
      hq, hk, Device.log]

/-- What a successful attach implies about the collaborators' outcomes. -/
theorem shmem_init_ok (env : Env) (d : Device) (b : Obj)
    (hok : (virtio_gpu_object_shmem_init env d b).ret = 0) :
    ¬ env.pin_ret < 0 ∧ (∃ t, env.sg_table = some t)
      ∧ (d.dma_quirk = false → env.dma_map_ret = 0) ∧ env.kvmalloc_ok = true := by
  by_cases hp : env.pin_ret < 0
  · rw [shmem_init_pin_fail env d b hp] at hok
    simp [EINVAL] at hok
  · cases ht : env.sg_table with
    | none =>
      rw [shmem_init_no_table env d b hp ht] at hok
      simp [EINVAL] at hok
    | some t =>
      cases hq : d.dma_quirk with
      | true =>
        rw [shmem_init_quirk env d b t hp ht hq] at hok
        cases hk : env.kvmalloc_ok with
        | true => exact ⟨hp, ⟨t, rfl⟩, by simp, rfl⟩
        | false => simp [hk, ENOMEM] at hok
      | false =>
        by_cases hm : env.dma_map_ret = 0
        · rw [shmem_init_dma env d b t hp ht hq hm] at hok
          cases hk : env.kvmalloc_ok with
          | true => exact ⟨hp, ⟨t, rfl⟩, fun _ => hm, rfl⟩
          | false => simp [hk, ENOMEM] at hok
        · rw [shmem_init_map_fail env d b t hp ht hq hm] at hok
          exact absurd hok hm

/-- C5, counterexample: with the entry-array allocation failing, attach
returns `-ENOMEM` while the buffer is still pinned (pin count 1, was 0) and
still mapped (`mapped` 1, was 0); its trace holds no unpin and no unmap. -/
theorem C5_counterexample_not_undone :
    (virtio_gpu_object_shmem_init { env_ok with kvmalloc_ok := false } (dev0 false false)
        virtio_gpu_create_object).ret = -ENOMEM
      ∧ (virtio_gpu_object_shmem_init { env_ok with kvmalloc_ok := false } (dev0 false false)
          virtio_gpu_create_object).vgdev.trace = [Ev.pin, Ev.get_sg_table, Ev.dma_map]
      ∧ ¬ ((virtio_gpu_object_shmem_init { env_ok with kvmalloc_ok := false }
              (dev0 false false) virtio_gpu_create_object).bo.pin_count
            = virtio_gpu_create_object.pin_count)
      ∧ ¬ ((virtio_gpu_object_shmem_init { env_ok with kvmalloc_ok := false }
              (dev0 false false) virtio_gpu_create_object).bo.mapped
            = virtio_gpu_create_object.mapped) := by
  decide

/-- C6: in both translation modes, a successful attach on a buffer that is not
mapped, followed immediately by the teardown of `virtio_gpu_cleanup_object`,
leaves the pin count and `mapped` as they were before attach and clears the
table pointer. Attach pins once and the teardown unpins once; a mapping is
made exactly when the DMA API is in use, `mapped` is then set, and the teardown
unmaps exactly as often as attach mapped. (A device mapping that succeeds
yields at least one segment.) -/
theorem C6_attach_teardown_roundtrip (env : Env) (d : Device) (b : Obj)
    (hb : b.mapped = 0) (hs : d.dma_quirk = false → 0 < env.dma_segs.length)
    (hok : (virtio_gpu_object_shmem_init env d b).ret = 0) :
    (shmem_teardown (virtio_gpu_object_shmem_init env d b).vgdev
        (virtio_gpu_object_shmem_init env d b).bo).2.pin_count = b.pin_count
      ∧ (shmem_teardown (virtio_gpu_object_shmem_init env d b).vgdev
          (virtio_gpu_object_shmem_init env d b).bo).2.mapped = b.mapped
      ∧ (shmem_teardown (virtio_gpu_object_shmem_init env d b).vgdev
          (virtio_gpu_object_shmem_init env d b).bo).2.pages = none
      ∧ (virtio_gpu_object_shmem_init env d b).bo.pin_count = b.pin_count + 1
      ∧ (virtio_gpu_object_shmem_init env d b).bo.pages ≠ none
      ∧ ((virtio_gpu_object_shmem_init env d b).bo.mapped ≠ 0 ↔ d.dma_quirk = false)
      ∧ ∃ delta,
          (shmem_teardown (virtio_gpu_object_shmem_init env d b).vgdev
              (virtio_gpu_object_shmem_init env d b).bo).1.trace = d.trace ++ delta
            ∧ delta.count Ev.pin = 1 ∧ delta.count Ev.unpin = 1
            ∧ delta.count Ev.dma_map = (if d.dma_quirk then 0 else 1)
            ∧ delta.count Ev.dma_unmap = delta.count Ev.dma_map
            ∧ delta.count Ev.sg_free_table = 1 := by
  obtain ⟨hp, ⟨t, ht⟩, hm, hk⟩ := shmem_init_ok env d b hok
  cases hq : d.dma_quirk with
  | true =>
    rw [shmem_init_quirk env d b t hp ht hq, shmem_teardown_spec]
    simp only [hk, if_true, torn_down, teardown_events, hb]
    refine ⟨by simp, by simp, by simp, by simp, by simp, by simp, ?_⟩
    exact ⟨[Ev.pin, Ev.get_sg_table, Ev.kvmalloc_array t.orig_nents, Ev.sg_free_table,
      Ev.kfree_pages, Ev.unpin], by simp, by simp, by simp, by simp, by simp, by simp⟩
  | false =>
    have hpos : env.dma_segs.length ≠ 0 := Nat.pos_iff_ne_zero.1 (hs hq)
    rw [shmem_init_dma env d b t hp ht hq (hm hq), shmem_teardown_spec]
    simp only [hk, if_true, torn_down, teardown_events]
    refine ⟨by simp, by simp [hb], by simp, by simp, by simp, by simp [hpos], ?_⟩
    exact ⟨[Ev.pin, Ev.get_sg_table, Ev.dma_map, Ev.kvmalloc_array env.dma_segs.length,
      Ev.dma_unmap, Ev.sg_free_table, Ev.kfree_pages, Ev.unpin],
      by simp [hpos], by simp, by simp, by simp, by simp, by simp⟩

/-- C6 at a concrete buffer, DMA API in use. -/
theorem C6_attach_teardown_roundtrip_witness :
    (shmem_teardown (virtio_gpu_object_shmem_init env_ok (dev0 false false)
          { virtio_gpu_create_object with pin_count := 3 }).vgdev
        (virtio_gpu_object_shmem_init env_ok (dev0 false false)
          { virtio_gpu_create_object with pin_count := 3 }).bo).2.pin_count = 3 :=
  (C6_attach_teardown_roundtrip env_ok (dev0 false false)
    { virtio_gpu_create_object with pin_count := 3 } rfl (by decide) (by decide)).1

/-! ## Wire format -/

theorem set_length_append {α : Type} (pre : List α) (y x : α) (rest : List α) :
    (pre ++ y :: rest).set pre.length x = pre ++ x :: rest := by
  induction pre with
  | nil => rfl
  | cons a pre ih =>
    show a :: (pre ++ y :: rest).set pre.length x = a :: (pre ++ x :: rest)
    rw [ih]

/-- The loop stores one record per visited entry, in order, into an array
whose slots from `pre.length` on are still empty. -/
theorem fill_ents_append (body : Scatterlist → MemEntry) (l : List Scatterlist) :
    ∀ (pre : List (Option MemEntry)) (k : Nat),
      fill_ents body l pre.length (pre ++ List.replicate (l.length + k) none)
        = pre ++ l.map (fun sg => some (body sg)) ++ List.replicate k none := by
  induction l with
  | nil =>
    intro pre k
    simp [fill_ents]
  | cons sg rest ih =>
    intro pre k
    have h1 : List.replicate ((sg :: rest).length + k) (none : Option MemEntry)
        = none :: List.replicate (rest.length + k) none := by
      rw [List.length_cons, show rest.length + 1 + k = (rest.length + k) + 1 by omega,
        List.replicate_succ]
    have h2 := ih (pre ++ [some (body sg)]) k
    rw [List.length_append, List.length_singleton] at h2
    rw [h1, fill_ents, set_length_append]
    rw [show pre ++ some (body sg) :: List.replicate (rest.length + k) none
        = (pre ++ [some (body sg)]) ++ List.replicate (rest.length + k) none by simp, h2]
    simp

/-- Run on an empty array with one slot per visited entry, the loop writes
every slot. -/
theorem fill_ents_replicate (body : Scatterlist → MemEntry) (l : List Scatterlist) (n : Nat)
    (hn : l.length = n) :
    fill_ents body l 0 (List.replicate n none) = l.map (fun sg => some (body sg)) := by
  have h := fill_ents_append body l [] 0
  subst hn
  simpa using h

theorem le_bytes_succ (n x : Nat) : le_bytes (n + 1) x = (x % 256) :: le_bytes n (x / 256) := by
  unfold le_bytes
  rw [List.range_succ_eq_map, List.map_cons, List.map_map]
  congr 1
  · simp
  · apply List.map_congr_left
    intro k _
    simp only [Function.comp, Nat.succ_eq_add_one, pow_succ]
    rw [Nat.mul_comm, Nat.div_div_eq_div_mul]

theorem le_bytes_length (n x : Nat) : (le_bytes n x).length = n := by
  simp [le_bytes]

/-- The bytes are the little-endian digits of the value reduced to `n`
bytes. -/
theorem le_value_le_bytes (n : Nat) : ∀ x, le_value (le_bytes n x) = x % 256 ^ n := by
  induction n with
  | zero => intro x; simp [le_bytes, le_value, Nat.mod_one]
  | succ n ih =>
    intro x
    rw [le_bytes_succ, le_value, ih, Nat.pow_succ, Nat.mul_comm (256 ^ n) 256,
      Nat.mod_mul, Nat.add_comm]

theorem write_dma_length : ∀ (sgl : List Scatterlist) (segs : List (Nat × Nat)),
    (write_dma sgl segs).length = sgl.length := by
  intro sgl
  induction sgl with
  | nil => intro segs; cases segs <;> rfl
  | cons sg sgl ih =>
    intro segs
    cases segs with
    | nil => rfl
    | cons seg segs => simp [write_dma, ih]

theorem take_map_getElem {β : Type} (f : Scatterlist → β) (l : List Scatterlist) (n i : Nat)
    (hi : i < n) (hn : n ≤ l.length) :
    ∃ sg, l[i]? = some sg ∧ ((l.take n).map f)[i]? = some (f sg) := by
  have hil : i < l.length := by omega
  refine ⟨l[i], List.getElem?_eq_getElem hil, ?_⟩
  rw [List.getElem?_map, List.getElem?_take_of_lt hi, List.getElem?_eq_getElem hil]
  rfl

/-- The records written by the source's loop bodies are the records of the
spec's wording. -/
theorem spec_wire_records_eq (quirk : Bool) (tbl : SgTable) :
    spec_wire_records quirk tbl
      = if quirk then (tbl.sgl.take tbl.orig_nents).map ent_of_sg
        else (tbl.sgl.take tbl.nents).map ent_of_dma_sg := by
  unfold spec_wire_records
  cases quirk <;> rfl

/-- What the device mapping stores: leading entry `i` keeps what it held and
takes the address and length of mapped segment `i`. -/
theorem write_dma_getElem : ∀ (sgl : List Scatterlist) (segs : List (Nat × Nat)) (i : Nat),
    i < segs.length → segs.length ≤ sgl.length →
    ∃ sg seg, sgl[i]? = some sg ∧ segs[i]? = some seg
      ∧ (write_dma sgl segs)[i]?
          = some { sg with dma_address := seg.1, dma_length := seg.2 } := by
  intro sgl
  induction sgl with
  | nil =>
    intro segs i hi hle
    have : segs.length = 0 := Nat.le_zero.1 hle
    omega
  | cons sg sgl ih =>
    intro segs i hi hle
    cases segs with
    | nil => simp at hi
    | cons seg segs =>
      cases i with
      | zero => exact ⟨sg, seg, by simp, by simp, by simp [write_dma]⟩
      | succ i =>
        simp only [List.length_cons, Nat.add_lt_add_iff_right, Nat.add_le_add_iff_right]
          at hi hle
        obtain ⟨sg', seg', h1, h2, h3⟩ := ih segs i hi hle
        exact ⟨sg', seg', by simpa using h1, by simpa using h2, by simpa [write_dma] using h3⟩

/-- C7: when attach succeeds on the table `t` the buffer abstraction returned
(its entry list covering the entries it counts), with `segs` the segments a
device mapping produced:
* in quirk mode the table kept is `t` and `*nents` is `t.orig_nents`; with the
  DMA API the table kept is `t` with `nents` set to the number of mapped
  segments and the leading entries carrying their addresses and lengths, and
  `*nents` is that number;
* the array has exactly `*nents` slots and every slot is written;
* record `i` is made from segment `i`: in quirk mode the physical address and
  length of entry `i` of `t`, with the DMA API the address and length of
  mapped segment `i`; the address as 8 little-endian bytes, the length as 4
  little-endian bytes, then 4 zero bytes of padding, 16 bytes in all;
* the array is the value of `spec_wire_records` at the mode and that table,
  so equal tables in equal modes give equal records. -/
theorem C7_wire_records (env : Env) (d : Device) (b : Obj) (t : SgTable)
    (ht : env.sg_table = some t)
    (hwf : d.dma_quirk = true → t.orig_nents ≤ t.sgl.length)
    (hseg : d.dma_quirk = false → env.dma_segs.length ≤ t.sgl.length)
    (hok : (virtio_gpu_object_shmem_init env d b).ret = 0) :
    ∃ (tbl : SgTable) (n : Nat) (recs : List MemEntry),
      (virtio_gpu_object_shmem_init env d b).bo.pages = some tbl
        ∧ tbl = (if d.dma_quirk then t
                 else { t with nents := env.dma_segs.length,
                               sgl := write_dma t.sgl env.dma_segs })
        ∧ (virtio_gpu_object_shmem_init env d b).nents = some n
        ∧ n = (if d.dma_quirk then t.orig_nents else env.dma_segs.length)
        ∧ n = (if d.dma_quirk then tbl.orig_nents else tbl.nents)
        ∧ (virtio_gpu_object_shmem_init env d b).ents = some (recs.map some)
        ∧ recs.length = n
        ∧ recs = spec_wire_records d.dma_quirk tbl
        ∧ (∀ i, i < n → ∃ sg e, tbl.sgl[i]? = some sg ∧ recs[i]? = some e
            ∧ e.addr = cpu_to_le64 (if d.dma_quirk then sg.phys else sg.dma_address)
            ∧ e.length = cpu_to_le32 (if d.dma_quirk then sg.length else sg.dma_length)
            ∧ e.padding = [0, 0, 0, 0]
            ∧ e.addr.length = 8 ∧ e.length.length = 4 ∧ e.wire.length = 16
            ∧ le_value e.addr
                = (if d.dma_quirk then sg.phys else sg.dma_address) % 18446744073709551616
            ∧ le_value e.length
                = (if d.dma_quirk then sg.length else sg.dma_length) % 4294967296)
        ∧ (d.dma_quirk = true → ∀ i, i < n → ∃ sg,
            t.sgl[i]? = some sg
              ∧ recs[i]? = some { addr := cpu_to_le64 sg.phys, length := cpu_to_le32 sg.length,
                                  padding := [0, 0, 0, 0] })
        ∧ (d.dma_quirk = false → ∀ i, i < n → ∃ seg,
            env.dma_segs[i]? = some seg
              ∧ recs[i]? = some { addr := cpu_to_le64 seg.1, length := cpu_to_le32 seg.2,
                                  padding := [0, 0, 0, 0] }) := by
  obtain ⟨hp, ⟨t', ht'⟩, hm, hk⟩ := shmem_init_ok env d b hok
  rw [ht] at ht'
  cases ht'
  cases hq : d.dma_quirk with
  | true =>
    have hlen : (t.sgl.take t.orig_nents).length = t.orig_nents := by
      rw [List.length_take]; exact Nat.min_eq_left (hwf hq)
    refine ⟨t, t.orig_nents, (t.sgl.take t.orig_nents).map ent_of_sg, ?_⟩
    rw [shmem_init_quirk env d b t hp ht hq, spec_wire_records_eq]
    rw [hk, if_pos rfl]
    refine ⟨rfl, rfl, rfl, rfl, rfl, ?_, by rw [List.length_map, hlen], rfl, ?_, ?_, ?_⟩
    · rw [fill_ents_replicate _ _ _ hlen, List.map_map]; rfl
    · intro i hi
      obtain ⟨sg, h1, h2⟩ := take_map_getElem ent_of_sg t.sgl t.orig_nents i hi (hwf hq)
      refine ⟨sg, ent_of_sg sg, h1, h2, rfl, rfl, rfl, ?_, ?_, ?_, ?_, ?_⟩
      · exact le_bytes_length _ _
      · exact le_bytes_length _ _
      · simp [MemEntry.wire, ent_of_sg, cpu_to_le64, cpu_to_le32, le_bytes_length]
      · exact le_value_le_bytes 8 _
      · exact le_value_le_bytes 4 _
    · intro _ i hi
      obtain ⟨sg, h1, h2⟩ := take_map_getElem ent_of_sg t.sgl t.orig_nents i hi (hwf hq)
      exact ⟨sg, h1, h2⟩
    · intro h; cases h
  | false =>
    have hlen : ((write_dma t.sgl env.dma_segs).take env.dma_segs.length).length
        = env.dma_segs.length := by
      rw [List.length_take, write_dma_length]; exact Nat.min_eq_left (hseg hq)
    refine ⟨{ t with nents := env.dma_segs.length, sgl := write_dma t.sgl env.dma_segs },
      env.dma_segs.length,
      ((write_dma t.sgl env.dma_segs).take env.dma_segs.length).map ent_of_dma_sg, ?_⟩
    rw [shmem_init_dma env d b t hp ht hq (hm hq), spec_wire_records_eq]
    rw [hk, if_pos rfl]
    refine ⟨rfl, rfl, rfl, rfl, rfl, ?_, by rw [List.length_map, hlen], rfl, ?_, ?_, ?_⟩
    · rw [fill_ents_replicate _ _ _ hlen, List.map_map]; rfl
    · intro i hi
      obtain ⟨sg, h1, h2⟩ := take_map_getElem ent_of_dma_sg (write_dma t.sgl env.dma_segs)
        env.dma_segs.length i hi (by rw [write_dma_length]; exact hseg hq)
      refine ⟨sg, ent_of_dma_sg sg, h1, h2, rfl, rfl, rfl, ?_, ?_, ?_, ?_, ?_⟩
      · exact le_bytes_length _ _
      · exact le_bytes_length _ _
      · simp [MemEntry.wire, ent_of_dma_sg, cpu_to_le64, cpu_to_le32, le_bytes_length]
      · exact le_value_le_bytes 8 _
      · exact le_value_le_bytes 4 _
    · intro h; cases h
    · intro _ i hi
      obtain ⟨sg, h1, h2⟩ := take_map_getElem ent_of_dma_sg (write_dma t.sgl env.dma_segs)
        env.dma_segs.length i hi (by rw [write_dma_length]; exact hseg hq)
      obtain ⟨sg0, seg, _, hs2, hs3⟩ := write_dma_getElem t.sgl env.dma_segs i hi (hseg hq)
      rw [hs3] at h1
      cases h1
      exact ⟨seg, hs2, h2⟩

/-- C7 at a concrete table of two segments that the device mapping coalesces
into one segment at address 65536 of length 8192: attach produces the single
record with bytes `00 00 01 00 00 00 00 00`, `00 20 00 00`, `00 00 00 00`. -/
theorem C7_wire_records_witness :
    (virtio_gpu_object_shmem_init env_ok (dev0 false false) virtio_gpu_create_object).ents
        = some [some { addr := [0, 0, 1, 0, 0, 0, 0, 0], length := [0, 32, 0, 0],
                       padding := [0, 0, 0, 0] }]
      ∧ (virtio_gpu_object_shmem_init env_ok (dev0 false false)
          virtio_gpu_create_object).nents = some 1 :=
  match C7_wire_records env_ok (dev0 false false) virtio_gpu_create_object
      { sgl := [⟨4096, 4096, 0, 0⟩, ⟨8192, 4096, 0, 0⟩], nents := 0, orig_nents := 2 }
      rfl (by decide) (by decide) (by decide) with
  | ⟨_, _, _, _, htbl, hn, hn', _, hents, _, hrecs, _⟩ => by
    subst htbl
    subst hn'
    subst hrecs
    exact ⟨hents.trans (by decide), hn.trans (by decide)⟩

/-! ## Creation orchestrator -/

/-- The two outcomes of `virtio_gpu_resource_id_get`: a negative error with
nothing written and nothing changed, or 0 with a handle written. In the second
case the strategy and the quirk flag are kept, and under the reclaiming
strategy index `handle - 1`, free until then, has been added to the pool and
logged. -/
theorem id_get_cases (g : Bool) (d : Device) :
    (∃ e : Int, e < 0 ∧ virtio_gpu_resource_id_get g d = (e, none, d))
      ∨ ∃ (h : Nat) (d' : Device), virtio_gpu_resource_id_get g d = (0, some h, d')
          ∧ d'.workaround = d.workaround ∧ d'.dma_quirk = d.dma_quirk
          ∧ d'.trace = d.trace ++ (if d.workaround then [] else [Ev.ida_alloc (u32_dec h)])
          ∧ (d.workaround = true → d'.resource_ida = d.resource_ida)
          ∧ (d.workaround = false →
              d'.resource_ida = u32_dec h :: d.resource_ida ∧ u32_dec h ∉ d.resource_ida
                ∧ h ≠ 0) := by
  cases hw : d.workaround with
  | true =>
    right
    refine ⟨(atomic_inc_return d.seqno + 1) % 4294967296,
      { d with seqno := atomic_inc_return d.seqno }, ?_, hw, rfl, by simp, fun _ => rfl,
      fun h => by simp at h⟩
    unfold virtio_gpu_resource_id_get
    rw [if_pos hw]
  | false =>
    rcases id_get_reclaim g d hw with ⟨hneg, hget⟩ | ⟨i, _, _, hni, _, hget⟩
    · left
      exact ⟨_, hneg, hget⟩
    · right
      have hdec : u32_dec (i + 1) = i := by
        unfold u32_dec; rw [if_neg (by omega)]; omega
      refine ⟨i + 1, _, hget, hw, rfl, by simp [hdec], fun h => by simp at h,
        fun _ => ⟨by rw [hdec], by rw [hdec]; exact hni, by omega⟩⟩

/-- Every way through the part of `virtio_gpu_object_create` that precedes the
host create command. -/
theorem create_prologue_cases (env : Env) (vgdev : Device) (P : Params) (fence : Bool) :
    (∃ e, env.shmem_create_err = some e
        ∧ create_prologue env vgdev P fence
            = Except.error { ret := e, bo_ptr := none, bo := none, vgdev := vgdev, params := P })
      ∨ (env.shmem_create_err = none
          ∧ ∃ e : Int, e < 0
            ∧ virtio_gpu_resource_id_get env.gfp_ok (vgdev.log (Ev.shmem_create P.size))
                = (e, none, vgdev.log (Ev.shmem_create P.size))
            ∧ create_prologue env vgdev P fence
                = Except.error (create_err_free_gem P e (vgdev.log (Ev.shmem_create P.size))
                    virtio_gpu_create_object))
      ∨ (env.shmem_create_err = none
          ∧ ∃ (h : Nat) (d' : Device),
            virtio_gpu_resource_id_get env.gfp_ok (vgdev.log (Ev.shmem_create P.size))
                = (0, some h, d')
            ∧ ((fence = true ∧ env.array_alloc_ok = false
                  ∧ create_prologue env vgdev P fence
                      = Except.error (create_err_put_id P (-ENOMEM) d'
                          { virtio_gpu_create_object with hw_res_handle := h, dumb := P.dumb }))
              ∨ (fence = true ∧ env.array_alloc_ok = true ∧ env.lock_resv_ret ≠ 0
                  ∧ create_prologue env vgdev P fence
                      = Except.error (create_err_put_objs P env.lock_resv_ret
                          ((d'.log Ev.array_alloc).log Ev.array_add_obj)
                          { virtio_gpu_create_object with hw_res_handle := h, dumb := P.dumb }))
              ∨ (fence = true ∧ env.array_alloc_ok = true ∧ env.lock_resv_ret = 0
                  ∧ create_prologue env vgdev P fence
                      = Except.ok (true,
                          ((d'.log Ev.array_alloc).log Ev.array_add_obj).log Ev.array_lock_resv,
                          { virtio_gpu_create_object with hw_res_handle := h, dumb := P.dumb }))
              ∨ (fence = false
                  ∧ create_prologue env vgdev P fence
                      = Except.ok (false, d',
                          { virtio_gpu_create_object with
                              hw_res_handle := h, dumb := P.dumb })))) := by
  cases hc : env.shmem_create_err with
  | some e =>
    left
    exact ⟨e, rfl, by simp [create_prologue, drm_gem_shmem_create, hc]⟩
  | none =>
    right
    rcases id_get_cases env.gfp_ok (vgdev.log (Ev.shmem_create P.size)) with
      ⟨e, he, hget⟩ | ⟨h, d', hget, _⟩
    · left
      exact ⟨rfl, e, he, hget, by simp [create_prologue, drm_gem_shmem_create, hc, hget, he]⟩
    · right
      refine ⟨rfl, h, d', hget, ?_⟩
      cases hf : fence with
      | false =>
        right; right; right
        exact ⟨rfl, by simp [create_prologue, drm_gem_shmem_create, hc, hget]⟩
      | true =>
        cases ha : env.array_alloc_ok with
        | false =>
          left
          exact ⟨rfl, rfl, by simp [create_prologue, drm_gem_shmem_create, hc, hget, ha]⟩
        | true =>
          by_cases hl : env.lock_resv_ret = 0
          · right; right; left
            exact ⟨rfl, rfl, hl,
              by simp [create_prologue, drm_gem_shmem_create, hc, hget, ha, hl]⟩
          · right; left
            exact ⟨rfl, rfl, hl,
              by simp [create_prologue, drm_gem_shmem_create, hc, hget, ha, hl]⟩

/-- What a successful `virtio_gpu_resource_id_get` leaves. -/
theorem id_get_ok_facts (g : Bool) (d : Device) (h : Nat) (d' : Device)
    (hget : virtio_gpu_resource_id_get g d = (0, some h, d')) :
    d'.workaround = d.workaround ∧ d'.dma_quirk = d.dma_quirk
      ∧ d'.trace = d.trace ++ (if d.workaround then [] else [Ev.ida_alloc (u32_dec h)])
      ∧ (d.workaround = true → d'.resource_ida = d.resource_ida)
      ∧ (d.workaround = false →
          d'.resource_ida = u32_dec h :: d.resource_ida ∧ u32_dec h ∉ d.resource_ida
            ∧ h ≠ 0) := by
  rcases id_get_cases g d with ⟨e, he, hget'⟩ | ⟨h', d'', hget', hfacts⟩
  · rw [hget] at hget'
    have : (0 : Int) = e := congrArg Prod.fst hget'
    omega
  · rw [hget] at hget'
    have h1 : some h = some h' := congrArg (fun p => p.2.1) hget'
    have h2 : d' = d'' := congrArg (fun p => p.2.2) hget'
    cases h1
    rw [h2]
    exact hfacts

theorem ida_free_cons_self (ida : List Nat) (i : Nat) (hi : i ∉ ida) :
    ida_free (i :: ida) i = ida := by
  unfold ida_free
  rw [List.filter_cons_of_neg (by simp)]
  apply List.filter_eq_self.2
  intro a ha
  simp only [decide_eq_true_eq]
  intro hai
  exact hi (hai ▸ ha)

/-- What a prologue that reaches the host create command leaves: a fresh
object carrying the new handle and the `dumb` flag, and the trace of the
acquisitions. -/
theorem create_prologue_ok_facts (env : Env) (vgdev : Device) (P : Params) (fence objs : Bool)
    (d : Device) (b : Obj)
    (hpro : create_prologue env vgdev P fence = Except.ok (objs, d, b)) :
    objs = fence
      ∧ d.workaround = vgdev.workaround ∧ d.dma_quirk = vgdev.dma_quirk
      ∧ b = { virtio_gpu_create_object with hw_res_handle := b.hw_res_handle, dumb := P.dumb }
      ∧ d.trace = vgdev.trace
          ++ prologue_events vgdev.workaround fence P.size b.hw_res_handle
      ∧ (vgdev.workaround = true → d.resource_ida = vgdev.resource_ida)
      ∧ (vgdev.workaround = false →
          d.resource_ida = u32_dec b.hw_res_handle :: vgdev.resource_ida
            ∧ u32_dec b.hw_res_handle ∉ vgdev.resource_ida ∧ b.hw_res_handle ≠ 0) := by
  rcases create_prologue_cases env vgdev P fence with
    ⟨e, _, h⟩ | ⟨_, e, _, _, h⟩ | ⟨_, h, d', hget, hcase⟩
  · rw [hpro] at h; cases h
  · rw [hpro] at h; cases h
  · obtain ⟨hw, hq, htr, hi1, hi2⟩ := id_get_ok_facts _ _ h d' hget
    have hw' : d'.workaround = vgdev.workaround := hw
    have hq' : d'.dma_quirk = vgdev.dma_quirk := hq
    have htr' : d'.trace = vgdev.trace ++ [Ev.shmem_create P.size]
        ++ (if vgdev.workaround then [] else [Ev.ida_alloc (u32_dec h)]) := htr
    rcases hcase with ⟨_, _, hp⟩ | ⟨_, _, _, hp⟩ | ⟨hf, _, _, hp⟩ | ⟨hf, hp⟩
    · rw [hpro] at hp; cases hp
    · rw [hpro] at hp; cases hp
    · rw [hpro] at hp
      cases hp
      refine ⟨hf.symm, hw', hq', rfl, ?_, hi1, hi2⟩
      simp [Device.log, htr', prologue_events, hf]
    · rw [hpro] at hp
      cases hp
      refine ⟨hf.symm, hw', hq', rfl, ?_, hi1, hi2⟩
      simp [htr', prologue_events, hf]

/-- Attach touches neither the handle allocator nor the object's handle and
flags. -/
theorem shmem_init_preserves (env : Env) (d : Device) (b : Obj) :
    (virtio_gpu_object_shmem_init env d b).vgdev.workaround = d.workaround
      ∧ (virtio_gpu_object_shmem_init env d b).vgdev.resource_ida = d.resource_ida
      ∧ (virtio_gpu_object_shmem_init env d b).vgdev.seqno = d.seqno
      ∧ (virtio_gpu_object_shmem_init env d b).vgdev.dma_quirk = d.dma_quirk
      ∧ (virtio_gpu_object_shmem_init env d b).bo.hw_res_handle = b.hw_res_handle
      ∧ (virtio_gpu_object_shmem_init env d b).bo.created = b.created
      ∧ (virtio_gpu_object_shmem_init env d b).bo.is_shmem_funcs = b.is_shmem_funcs
      ∧ (virtio_gpu_object_shmem_init env d b).bo.dumb = b.dumb
      ∧ (virtio_gpu_object_shmem_init env d b).bo.freed = b.freed := by
  by_cases hp : env.pin_ret < 0
  · rw [shmem_init_pin_fail env d b hp]; simp
  · cases ht : env.sg_table with
    | none => rw [shmem_init_no_table env d b hp ht]; simp
    | some t =>
      cases hq : d.dma_quirk with
      | true =>
        rw [shmem_init_quirk env d b t hp ht hq]
        cases env.kvmalloc_ok <;> simp [hq]
      | false =>
        by_cases hm : env.dma_map_ret = 0
        · rw [shmem_init_dma env d b t hp ht hq hm]
          cases env.kvmalloc_ok <;> simp [hq]
        · rw [shmem_init_map_fail env d b t hp ht hq hm]; simp [hq]

/-- The part of `virtio_gpu_object_create` from the host create command on:
the command marks the object `created`; if attach fails the object goes
through `virtio_gpu_free_object`, which only sends the unref command and
notifies; otherwise the attach command is sent and the object returned. -/
theorem create_epilogue_spec (env : Env) (P : Params) (fence objs : Bool) (d : Device)
    (b : Obj) :
    create_epilogue env P fence objs d b
      = if (virtio_gpu_object_shmem_init env
              (d.log (Ev.cmd (create_cmd P.virgl b.hw_res_handle objs fence)))
              { b with created := true }).ret ≠ 0 then
          { ret := (virtio_gpu_object_shmem_init env
              (d.log (Ev.cmd (create_cmd P.virgl b.hw_res_handle objs fence)))
              { b with created := true }).ret,
            bo_ptr := none,
            bo := some (virtio_gpu_object_shmem_init env
              (d.log (Ev.cmd (create_cmd P.virgl b.hw_res_handle objs fence)))
              { b with created := true }).bo,
            vgdev := { (virtio_gpu_object_shmem_init env
                (d.log (Ev.cmd (create_cmd P.virgl b.hw_res_handle objs fence)))
                { b with created := true }).vgdev with
              trace := (virtio_gpu_object_shmem_init env
                  (d.log (Ev.cmd (create_cmd P.virgl b.hw_res_handle objs fence)))
                  { b with created := true }).vgdev.trace
                ++ [Ev.cmd (Cmd.unref b.hw_res_handle), Ev.notify] },
            params := P }
        else
          { ret := 0,
            bo_ptr := some (virtio_gpu_object_shmem_init env
              (d.log (Ev.cmd (create_cmd P.virgl b.hw_res_handle objs fence)))
              { b with created := true }).bo,
            bo := some (virtio_gpu_object_shmem_init env
              (d.log (Ev.cmd (create_cmd P.virgl b.hw_res_handle objs fence)))
              { b with created := true }).bo,
            vgdev := (virtio_gpu_object_shmem_init env
                (d.log (Ev.cmd (create_cmd P.virgl b.hw_res_handle objs fence)))
                { b with created := true }).vgdev.log
              (Ev.cmd (Cmd.attach b.hw_res_handle
                ((virtio_gpu_object_shmem_init env
                  (d.log (Ev.cmd (create_cmd P.virgl b.hw_res_handle objs fence)))
                  { b with created := true }).ents.getD [])
                ((virtio_gpu_object_shmem_init env
                  (d.log (Ev.cmd (create_cmd P.virgl b.hw_res_handle objs fence)))
                  { b with created := true }).nents.getD 0))),
            params := P } := by
  have hc : (if P.virgl then virtio_gpu_cmd_resource_create_3d d b objs fence
             else virtio_gpu_cmd_create_resource d b objs fence)
      = (d.log (Ev.cmd (create_cmd P.virgl b.hw_res_handle objs fence)),
          { b with created := true }) := by
    cases P.virgl <;>
      simp [virtio_gpu_cmd_resource_create_3d, virtio_gpu_cmd_create_resource, create_cmd]
  obtain ⟨_, _, _, _, hh, hcr, _⟩ := shmem_init_preserves env
    (d.log (Ev.cmd (create_cmd P.virgl b.hw_res_handle objs fence))) { b with created := true }
  unfold create_epilogue
  rw [hc]
  dsimp only
  generalize virtio_gpu_object_shmem_init env
    (d.log (Ev.cmd (create_cmd P.virgl b.hw_res_handle objs fence)))
    { b with created := true } = i at hh hcr ⊢
  have hh' : i.bo.hw_res_handle = b.hw_res_handle := hh
  have hcr' : i.bo.created = true := hcr
  simp only [virtio_gpu_free_object, virtio_gpu_object_attach, virtio_gpu_cmd_unref_resource,
    virtio_gpu_notify, hcr', hh', if_true, Device.log, List.append_assoc, List.singleton_append]

theorem create_of_prologue_ok (env : Env) (vgdev : Device) (params : Params)
    (fence objs : Bool) (d : Device) (b : Obj)
    (hpro : create_prologue env vgdev { params with size := roundup params.size PAGE_SIZE } fence
      = Except.ok (objs, d, b)) :
    virtio_gpu_object_create env vgdev params fence
      = create_epilogue env { params with size := roundup params.size PAGE_SIZE } fence objs
          d b := by
  simp only [virtio_gpu_object_create, hpro]

/-- Attach on the object of a create that reached the attach step, pin
succeeding and no table returned: `-EINVAL`, with the pin undone and the
object as the create command left it. -/
theorem shmem_init_no_table_fresh (env : Env) (vgdev : Device) (params : Params)
    (fence objs : Bool) (d : Device) (b : Obj)
    (hpro : create_prologue env vgdev { params with size := roundup params.size PAGE_SIZE } fence
      = Except.ok (objs, d, b))
    (hp : ¬ env.pin_ret < 0) (ht : env.sg_table = none) :
    virtio_gpu_object_shmem_init env
        (d.log (Ev.cmd (create_cmd params.virgl b.hw_res_handle objs fence)))
        { b with created := true }
      = { ret := -EINVAL, ents := none, nents := none,
          vgdev := { d with trace := d.trace
            ++ [Ev.cmd (create_cmd params.virgl b.hw_res_handle objs fence), Ev.pin, Ev.unpin] },
          bo := { b with created := true } } := by
  obtain ⟨_, _, _, hb, _, _, _⟩ := create_prologue_ok_facts env vgdev _ fence objs d b hpro
  have hpages : b.pages = none := by rw [hb]; rfl
  rw [shmem_init_no_table env _ _ hp ht]
  simp [Device.log, hpages]

/-- C9: in a create that reaches the attach step, when the pin succeeds and
the buffer abstraction returns no table, attach pins, unpins and returns
`-EINVAL` with no entry array allocated, leaving the object with no table, not
mapped and with its pin count back at 0; create returns that same `-EINVAL`
with `*bo_ptr` null, having only added the unref command and the notify; no
attach command and no array allocation is in the trace of the call. -/
theorem C9_no_sg_table (env : Env) (vgdev : Device) (params : Params) (fence objs : Bool)
    (d : Device) (b : Obj)
    (hpro : create_prologue env vgdev { params with size := roundup params.size PAGE_SIZE } fence
      = Except.ok (objs, d, b))
    (hp : ¬ env.pin_ret < 0) (ht : env.sg_table = none) :
    virtio_gpu_object_shmem_init env
        (d.log (Ev.cmd (create_cmd params.virgl b.hw_res_handle objs fence)))
        { b with created := true }
      = { ret := -EINVAL, ents := none, nents := none,
          vgdev := { d with trace := d.trace
            ++ [Ev.cmd (create_cmd params.virgl b.hw_res_handle objs fence), Ev.pin, Ev.unpin] },
          bo := { b with created := true } }
      ∧ b.pages = none ∧ b.mapped = 0 ∧ b.pin_count = 0
      ∧ virtio_gpu_object_create env vgdev params fence
          = { ret := -EINVAL, bo_ptr := none, bo := some { b with created := true },
              vgdev := { d with trace := d.trace
                ++ [Ev.cmd (create_cmd params.virgl b.hw_res_handle objs fence), Ev.pin, Ev.unpin,
                    Ev.cmd (Cmd.unref b.hw_res_handle), Ev.notify] },
              params := { params with size := roundup params.size PAGE_SIZE } }
      ∧ ∃ delta, (virtio_gpu_object_create env vgdev params fence).vgdev.trace
            = vgdev.trace ++ delta
          ∧ ∀ e ∈ delta, e.is_attach = false ∧ e.is_kvmalloc = false := by
  obtain ⟨_, _, _, hb, htr, _, _⟩ := create_prologue_ok_facts env vgdev _ fence objs d b hpro
  have hpages : b.pages = none := by rw [hb]; rfl
  have hmapped : b.mapped = 0 := by rw [hb]; rfl
  have hpin : b.pin_count = 0 := by rw [hb]; rfl
  have hinit := shmem_init_no_table_fresh env vgdev params fence objs d b hpro hp ht
  have hcreate : virtio_gpu_object_create env vgdev params fence
      = { ret := -EINVAL, bo_ptr := none, bo := some { b with created := true },
          vgdev := { d with trace := d.trace
            ++ [Ev.cmd (create_cmd params.virgl b.hw_res_handle objs fence), Ev.pin, Ev.unpin,
                Ev.cmd (Cmd.unref b.hw_res_handle), Ev.notify] },
          params := { params with size := roundup params.size PAGE_SIZE } } := by
    rw [create_of_prologue_ok env vgdev params fence objs d b hpro, create_epilogue_spec]
    dsimp only
    rw [hinit]
    simp [EINVAL]
  refine ⟨hinit, hpages, hmapped, hpin, hcreate, ?_⟩
  rw [hcreate]
  dsimp only
  rw [htr]
  refine ⟨_, by rw [List.append_assoc], ?_⟩
  intro e he
  have hall : (prologue_events vgdev.workaround fence (roundup params.size PAGE_SIZE)
        b.hw_res_handle
      ++ [Ev.cmd (create_cmd params.virgl b.hw_res_handle objs fence), Ev.pin, Ev.unpin,
          Ev.cmd (Cmd.unref b.hw_res_handle), Ev.notify]).all
        (fun e => !e.is_attach && !e.is_kvmalloc) = true := by
    cases vgdev.workaround <;> cases fence <;> cases params.virgl <;>
      simp [prologue_events, create_cmd, Ev.is_attach, Ev.is_kvmalloc]
  have := List.all_eq_true.1 hall e he
  simpa using this

/-- C9 at a concrete call. -/
theorem C9_no_sg_table_witness :
    (virtio_gpu_object_create { env_ok with sg_table := none } (dev0 true false)
        ⟨100, true, false⟩ false).ret = -EINVAL
      ∧ (virtio_gpu_object_create { env_ok with sg_table := none } (dev0 true false)
          ⟨100, true, false⟩ false).bo_ptr = none :=
  ⟨congrArg CreateResult.ret
      (C9_no_sg_table { env_ok with sg_table := none } (dev0 true false) ⟨100, true, false⟩
        false false _ _ rfl (by decide) rfl).2.2.2.2.1,
   congrArg CreateResult.bo_ptr
      (C9_no_sg_table { env_ok with sg_table := none } (dev0 true false) ⟨100, true, false⟩
        false false _ _ rfl (by decide) rfl).2.2.2.2.1⟩

/-- A create whose attach step fails, followed by the completion callback of
the unref command: the whole trace, the object left and the pool. -/
theorem attach_failure_sequence (env : Env) (vgdev : Device) (params : Params)
    (fence objs : Bool) (d : Device) (b : Obj)
    (hpro : create_prologue env vgdev { params with size := roundup params.size PAGE_SIZE } fence
      = Except.ok (objs, d, b))
    (r' : Int) (ents : Option (List (Option MemEntry))) (n : Option Nat) (idelta : List Ev)
    (ibo : Obj)
    (hi : virtio_gpu_object_shmem_init env
        (d.log (Ev.cmd (create_cmd params.virgl b.hw_res_handle objs fence)))
        { b with created := true }
      = { ret := r', ents := ents, nents := n,
          vgdev := { d with trace := d.trace
            ++ (Ev.cmd (create_cmd params.virgl b.hw_res_handle objs fence) :: idelta) },
          bo := ibo })
    (hr : r' ≠ 0) :
    (virtio_gpu_object_create env vgdev params fence).ret = r'
      ∧ (virtio_gpu_object_create env vgdev params fence).bo_ptr = none
      ∧ (virtio_gpu_object_create env vgdev params fence).bo = some ibo
      ∧ ibo.created = true ∧ ibo.hw_res_handle = b.hw_res_handle
      ∧ (unref_completion (virtio_gpu_object_create env vgdev params fence).vgdev ibo).1.trace
          = vgdev.trace
            ++ (prologue_events vgdev.workaround fence (roundup params.size PAGE_SIZE)
                  b.hw_res_handle
                ++ (Ev.cmd (create_cmd params.virgl b.hw_res_handle objs fence) :: idelta)
                ++ [Ev.cmd (Cmd.unref b.hw_res_handle), Ev.notify]
                ++ put_events vgdev.workaround b.hw_res_handle
                ++ teardown_events ibo ++ [Ev.shmem_free_object])
      ∧ (unref_completion (virtio_gpu_object_create env vgdev params fence).vgdev ibo).2
          = { (torn_down ibo) with freed := true }
      ∧ (unref_completion (virtio_gpu_object_create env vgdev params fence).vgdev
            ibo).1.resource_ida = vgdev.resource_ida := by
  obtain ⟨_, hw, _, hb, htr, hida1, hida2⟩ :=
    create_prologue_ok_facts env vgdev _ fence objs d b hpro
  obtain ⟨_, _, _, _, hh, hcr, hsh, _⟩ := shmem_init_preserves env
    (d.log (Ev.cmd (create_cmd params.virgl b.hw_res_handle objs fence)))
    { b with created := true }
  rw [hi] at hh hcr hsh
  have hh' : ibo.hw_res_handle = b.hw_res_handle := hh
  have hcr' : ibo.created = true := hcr
  have hsh' : ibo.is_shmem_funcs = true := by
    have : ibo.is_shmem_funcs = b.is_shmem_funcs := hsh
    rw [this, hb]; rfl
  have hcreate : virtio_gpu_object_create env vgdev params fence
      = { ret := r', bo_ptr := none, bo := some ibo,
          vgdev := { d with trace := d.trace
            ++ (Ev.cmd (create_cmd params.virgl b.hw_res_handle objs fence) :: idelta)
            ++ [Ev.cmd (Cmd.unref b.hw_res_handle), Ev.notify] },
          params := { params with size := roundup params.size PAGE_SIZE } } := by
    rw [create_of_prologue_ok env vgdev params fence objs d b hpro, create_epilogue_spec]
    dsimp only
    rw [hi]
    simp [hr]
  rw [hcreate]
  dsimp only
  refine ⟨rfl, rfl, rfl, hcr', hh', ?_, ?_, ?_⟩
  · rw [unref_completion, cleanup_object_spec]
    simp only [cleanup_events, hsh', if_true, hw, hh', htr, List.append_assoc]
  · rw [unref_completion, cleanup_object_spec]
    simp only [hsh', if_true]
  · rw [unref_completion, cleanup_object_spec]
    dsimp only
    rw [hw, hh']
    cases hvw : vgdev.workaround with
    | true => simpa using hida1 hvw
    | false =>
      obtain ⟨h1, h2, _⟩ := hida2 hvw
      simp only [Bool.false_eq_true, if_false]
      rw [h1, ida_free_cons_self _ _ h2]

/-- Attach whose entry-array allocation fails, all earlier steps succeeding:
what it returns and leaves. -/
theorem shmem_init_alloc_fail (env : Env) (d : Device) (b : Obj) (t : SgTable)
    (hp : ¬ env.pin_ret < 0) (ht : env.sg_table = some t)
    (hm : d.dma_quirk = false → env.dma_map_ret = 0) (hk : env.kvmalloc_ok = false) :
    virtio_gpu_object_shmem_init env d b
      = { ret := -ENOMEM, ents := none,
          nents := some (if d.dma_quirk then t.orig_nents else env.dma_segs.length),
          vgdev := { d with trace := d.trace ++ [Ev.pin, Ev.get_sg_table]
            ++ (if d.dma_quirk then [] else [Ev.dma_map]) },
          bo := { b with
            pages := some (if d.dma_quirk then t
                           else { t with nents := env.dma_segs.length,
                                         sgl := write_dma t.sgl env.dma_segs }),
            mapped := (if d.dma_quirk then b.mapped else env.dma_segs.length),
            pin_count := b.pin_count + 1 } } := by
  cases hq : d.dma_quirk with
  | true =>
    rw [shmem_init_quirk env d b t hp ht hq, hk]
    simp [hq]
  | false =>
    rw [shmem_init_dma env d b t hp ht hq (hm hq), hk]
    simp [hq]

/-- A create whose attach step fails hands the object to
`virtio_gpu_free_object` and returns attach's error with a null `*bo_ptr`. -/
theorem create_attach_fail_eq (env : Env) (vgdev : Device) (params : Params)
    (fence objs : Bool) (d : Device) (b : Obj)
    (hpro : create_prologue env vgdev { params with size := roundup params.size PAGE_SIZE } fence
      = Except.ok (objs, d, b))
    (hne : (virtio_gpu_object_shmem_init env
        (d.log (Ev.cmd (create_cmd params.virgl b.hw_res_handle objs fence)))
        { b with created := true }).ret ≠ 0) :
    virtio_gpu_object_create env vgdev params fence
      = { ret := (virtio_gpu_object_shmem_init env
            (d.log (Ev.cmd (create_cmd params.virgl b.hw_res_handle objs fence)))
            { b with created := true }).ret,
          bo_ptr := none,
          bo := some (virtio_gpu_free_object
            (virtio_gpu_object_shmem_init env
              (d.log (Ev.cmd (create_cmd params.virgl b.hw_res_handle objs fence)))
              { b with created := true }).vgdev
            (virtio_gpu_object_shmem_init env
              (d.log (Ev.cmd (create_cmd params.virgl b.hw_res_handle objs fence)))
              { b with created := true }).bo).2,
          vgdev := (virtio_gpu_free_object
            (virtio_gpu_object_shmem_init env
              (d.log (Ev.cmd (create_cmd params.virgl b.hw_res_handle objs fence)))
              { b with created := true }).vgdev
            (virtio_gpu_object_shmem_init env
              (d.log (Ev.cmd (create_cmd params.virgl b.hw_res_handle objs fence)))
              { b with created := true }).bo).1,
          params := { params with size := roundup params.size PAGE_SIZE } } := by
  have hc : (if params.virgl then virtio_gpu_cmd_resource_create_3d d b objs fence
             else virtio_gpu_cmd_create_resource d b objs fence)
      = (d.log (Ev.cmd (create_cmd params.virgl b.hw_res_handle objs fence)),
          { b with created := true }) := by
    cases params.virgl <;>
      simp [virtio_gpu_cmd_resource_create_3d, virtio_gpu_cmd_create_resource, create_cmd]
  rw [create_of_prologue_ok env vgdev params fence objs d b hpro]
  unfold create_epilogue
  dsimp only
  rw [hc]
  dsimp only
  rw [if_pos hne]

/-- C5 (amended): when the allocation of the entry array fails (pin, table and
device mapping having succeeded, a successful mapping yielding at least one
segment), `virtio_gpu_object_shmem_init` returns `-ENOMEM` without undoing
anything: on any buffer that was not mapped, at its return the pin count is
one above its value before attach, the table is still recorded, `mapped` is
non-zero exactly when the DMA API is in use, and its trace holds no unpin and
no unmap. On an object with `created` set `virtio_gpu_free_object` then only
sends the unref command and a notify, and `virtio_gpu_cleanup_object` undoes
both: it unmaps (DMA API only), frees the table and unpins, leaving the pin
count and `mapped` at their values before attach and no table. In
`virtio_gpu_object_create` this is the path taken: create returns `-ENOMEM`
with a null `*bo_ptr`, its device and object are those
`virtio_gpu_free_object` returns on attach's result, the object is still
pinned once, and after `virtio_gpu_cleanup_object` (run by the completion
callback) the object has pin count 0, is not mapped, has no table and is
freed. -/
theorem C5_alloc_failure_deferred (env : Env) (t : SgTable)
    (hp : ¬ env.pin_ret < 0) (ht : env.sg_table = some t)
    (hseg : env.dma_map_ret = 0 → 0 < env.dma_segs.length)
    (hk : env.kvmalloc_ok = false) :
    (∀ (d : Device) (b : Obj), b.mapped = 0 → (d.dma_quirk = false → env.dma_map_ret = 0) →
        (virtio_gpu_object_shmem_init env d b).ret = -ENOMEM
          ∧ (virtio_gpu_object_shmem_init env d b).ents = none
          ∧ (virtio_gpu_object_shmem_init env d b).bo.pin_count = b.pin_count + 1
          ∧ (virtio_gpu_object_shmem_init env d b).bo.pages ≠ none
          ∧ ((virtio_gpu_object_shmem_init env d b).bo.mapped ≠ 0 ↔ d.dma_quirk = false)
          ∧ (virtio_gpu_object_shmem_init env d b).vgdev.trace
              = d.trace ++ [Ev.pin, Ev.get_sg_table]
                ++ (if d.dma_quirk then [] else [Ev.dma_map])
          ∧ (b.created = true →
              virtio_gpu_free_object (virtio_gpu_object_shmem_init env d b).vgdev
                  (virtio_gpu_object_shmem_init env d b).bo
                = ({ (virtio_gpu_object_shmem_init env d b).vgdev with
                      trace := (virtio_gpu_object_shmem_init env d b).vgdev.trace
                        ++ [Ev.cmd (Cmd.unref b.hw_res_handle), Ev.notify] },
                    (virtio_gpu_object_shmem_init env d b).bo))
          ∧ (b.is_shmem_funcs = true → ∀ x : Device,
              (virtio_gpu_cleanup_object x (virtio_gpu_object_shmem_init env d b).bo).2.pin_count
                  = b.pin_count
                ∧ (virtio_gpu_cleanup_object x
                    (virtio_gpu_object_shmem_init env d b).bo).2.mapped = b.mapped
                ∧ (virtio_gpu_cleanup_object x
                    (virtio_gpu_object_shmem_init env d b).bo).2.pages = none
                ∧ (virtio_gpu_cleanup_object x
                    (virtio_gpu_object_shmem_init env d b).bo).1.trace
                  = x.trace ++ put_events x.workaround b.hw_res_handle
                    ++ (if d.dma_quirk then [] else [Ev.dma_unmap])
                    ++ [Ev.sg_free_table, Ev.kfree_pages, Ev.unpin, Ev.shmem_free_object]))
      ∧ (∀ (vgdev : Device) (params : Params) (fence objs : Bool) (d : Device) (b : Obj),
          create_prologue env vgdev { params with size := roundup params.size PAGE_SIZE } fence
              = Except.ok (objs, d, b) →
          (vgdev.dma_quirk = false → env.dma_map_ret = 0) →
          (virtio_gpu_object_create env vgdev params fence).ret = -ENOMEM
            ∧ (virtio_gpu_object_create env vgdev params fence).bo_ptr = none
            ∧ (virtio_gpu_object_create env vgdev params fence).vgdev
                = (virtio_gpu_free_object
                    (virtio_gpu_object_shmem_init env
                      (d.log (Ev.cmd (create_cmd params.virgl b.hw_res_handle objs fence)))
                      { b with created := true }).vgdev
                    (virtio_gpu_object_shmem_init env
                      (d.log (Ev.cmd (create_cmd params.virgl b.hw_res_handle objs fence)))
                      { b with created := true }).bo).1
            ∧ (virtio_gpu_object_create env vgdev params fence).bo
                = some (virtio_gpu_object_shmem_init env
                    (d.log (Ev.cmd (create_cmd params.virgl b.hw_res_handle objs fence)))
                    { b with created := true }).bo
            ∧ (virtio_gpu_object_create env vgdev params fence).vgdev.trace
                = d.trace
                  ++ [Ev.cmd (create_cmd params.virgl b.hw_res_handle objs fence), Ev.pin,
                      Ev.get_sg_table]
                  ++ (if vgdev.dma_quirk then [] else [Ev.dma_map])
                  ++ [Ev.cmd (Cmd.unref b.hw_res_handle), Ev.notify]
            ∧ ∃ bo, (virtio_gpu_object_create env vgdev params fence).bo = some bo
              ∧ bo.created = true ∧ bo.pin_count = 1 ∧ bo.pages ≠ none
              ∧ (bo.mapped ≠ 0 ↔ vgdev.dma_quirk = false)
              ∧ unref_completion (virtio_gpu_object_create env vgdev params fence).vgdev bo
                  = virtio_gpu_cleanup_object
                      (virtio_gpu_object_create env vgdev params fence).vgdev bo
              ∧ (virtio_gpu_cleanup_object
                    (virtio_gpu_object_create env vgdev params fence).vgdev bo).2
                  = { bo with mapped := 0, pages := none, pin_count := 0, freed := true }
              ∧ (virtio_gpu_cleanup_object
                    (virtio_gpu_object_create env vgdev params fence).vgdev bo).1.trace
                  = (virtio_gpu_object_create env vgdev params fence).vgdev.trace
                    ++ put_events vgdev.workaround b.hw_res_handle
                    ++ (if vgdev.dma_quirk then [] else [Ev.dma_unmap])
                    ++ [Ev.sg_free_table, Ev.kfree_pages, Ev.unpin,
                        Ev.shmem_free_object]) := by
  constructor
  · intro d b hb hm
    have hi := shmem_init_alloc_fail env d b t hp ht hm hk
    rw [hi]
    dsimp only
    refine ⟨rfl, rfl, rfl, by simp, ?_, rfl, ?_, ?_⟩
    · cases hq : d.dma_quirk with
      | true => simp [hb]
      | false =>
        have := Nat.pos_iff_ne_zero.1 (hseg (hm hq))
        simp [this]
    · intro hc
      rw [free_object_created _ _ (by exact hc)]
    · intro hs x
      rw [cleanup_object_spec]
      cases hq : d.dma_quirk with
      | true =>
        simp [hs, torn_down, cleanup_events, teardown_events, hb]
      | false =>
        have := Nat.pos_iff_ne_zero.1 (hseg (hm hq))
        simp [hs, torn_down, cleanup_events, teardown_events, hb, this]
  · intro vgdev params fence objs d b hpro hm
    obtain ⟨_, hw, hdq, hb, _, _, _⟩ := create_prologue_ok_facts env vgdev _ fence objs d b hpro
    have hmapped : b.mapped = 0 := by rw [hb]; rfl
    have hpin : b.pin_count = 0 := by rw [hb]; rfl
    have hshm : b.is_shmem_funcs = true := by rw [hb]; rfl
    have hcq : (d.log (Ev.cmd (create_cmd params.virgl b.hw_res_handle objs fence))).dma_quirk
        = vgdev.dma_quirk := hdq
    have hi := shmem_init_alloc_fail env
      (d.log (Ev.cmd (create_cmd params.virgl b.hw_res_handle objs fence)))
      { b with created := true } t hp ht (fun h => hm (hcq.symm.trans h)) hk
    have hne : (virtio_gpu_object_shmem_init env
        (d.log (Ev.cmd (create_cmd params.virgl b.hw_res_handle objs fence)))
        { b with created := true }).ret ≠ 0 := by
      rw [hi]; simp [ENOMEM]
    rw [create_attach_fail_eq env vgdev params fence objs d b hpro hne, hi]
    dsimp only
    rw [free_object_created _ _ rfl]
    dsimp only
    rw [hcq]
    refine ⟨rfl, rfl, rfl, rfl, by simp [Device.log], _, rfl, rfl, by simp [hpin], by simp, ?_,
      rfl, ?_, ?_⟩
    · cases hq : vgdev.dma_quirk with
      | true => simp [hmapped]
      | false =>
        have := Nat.pos_iff_ne_zero.1 (hseg (hm hq))
        simp [this]
    · rw [cleanup_object_spec]
      simp [hshm, torn_down, hpin]
    · rw [cleanup_object_spec]
      cases hq : vgdev.dma_quirk with
      | true =>
        simp [hshm, cleanup_events, teardown_events, hmapped, hw, Device.log]
      | false =>
        have := Nat.pos_iff_ne_zero.1 (hseg (hm hq))
        simp [hshm, cleanup_events, teardown_events, this, hw, Device.log]

/-- C5, the amended statement at a concrete buffer and a concrete create, DMA
API in use. -/
theorem C5_alloc_failure_deferred_witness :
    ((virtio_gpu_object_shmem_init { env_ok with kvmalloc_ok := false } (dev0 false false)
          virtio_gpu_create_object).bo.pin_count = virtio_gpu_create_object.pin_count + 1
        ∧ ((virtio_gpu_object_shmem_init { env_ok with kvmalloc_ok := false } (dev0 false false)
              virtio_gpu_create_object).bo.mapped ≠ 0 ↔ (dev0 false false).dma_quirk = false))
      ∧ (virtio_gpu_object_create { env_ok with kvmalloc_ok := false } (dev0 false false)
          ⟨100, true, false⟩ true).ret = -ENOMEM :=
  ⟨⟨((C5_alloc_failure_deferred { env_ok with kvmalloc_ok := false }
        { sgl := [⟨4096, 4096, 0, 0⟩, ⟨8192, 4096, 0, 0⟩], nents := 0, orig_nents := 2 }
        (by decide) rfl (by decide) rfl).1 (dev0 false false) virtio_gpu_create_object rfl
        (fun _ => rfl)).2.2.1,
     ((C5_alloc_failure_deferred { env_ok with kvmalloc_ok := false }
        { sgl := [⟨4096, 4096, 0, 0⟩, ⟨8192, 4096, 0, 0⟩], nents := 0, orig_nents := 2 }
        (by decide) rfl (by decide) rfl).1 (dev0 false false) virtio_gpu_create_object rfl
        (fun _ => rfl)).2.2.2.2.1⟩,
   ((C5_alloc_failure_deferred { env_ok with kvmalloc_ok := false }
      { sgl := [⟨4096, 4096, 0, 0⟩, ⟨8192, 4096, 0, 0⟩], nents := 0, orig_nents := 2 }
      (by decide) rfl (by decide) rfl).2 (dev0 false false) ⟨100, true, false⟩ true _ _ _ rfl
      (fun _ => rfl)).1⟩

/-- C10: in a create that reaches the attach step, whichever way attach fails
(pin failure, no table, device-map failure, entry-array allocation failure)
and in either translation mode, create returns a non-zero error with `*bo_ptr`
null and leaves an object with `created` set, so its cleanup is left to the
completion callback of the unref command. Once that callback has run
`virtio_gpu_cleanup_object`, over the whole sequence: as many unpins as
successful pins, as many unmaps as successful device maps, as many table frees
as tables obtained, one handle release (of the object's handle), one buffer
free; the object ends unpinned, not mapped, without table, and the pool is as
before the call. (A device mapping that succeeds yields at least one
segment.) -/
theorem C10_attach_failure_balance (env : Env) (vgdev : Device) (params : Params)
    (fence objs : Bool) (d : Device) (b : Obj)
    (hpro : create_prologue env vgdev { params with size := roundup params.size PAGE_SIZE } fence
      = Except.ok (objs, d, b))
    (hseg : env.dma_map_ret = 0 → 0 < env.dma_segs.length)
    (hfail : env.pin_ret < 0 ∨ env.sg_table = none
      ∨ (vgdev.dma_quirk = false ∧ env.dma_map_ret ≠ 0) ∨ env.kvmalloc_ok = false) :
    (virtio_gpu_object_create env vgdev params fence).ret ≠ 0
      ∧ (virtio_gpu_object_create env vgdev params fence).bo_ptr = none
      ∧ ∃ bo, (virtio_gpu_object_create env vgdev params fence).bo = some bo
        ∧ bo.created = true ∧ bo.hw_res_handle = b.hw_res_handle
        ∧ (unref_completion (virtio_gpu_object_create env vgdev params fence).vgdev
              bo).2.pin_count = 0
        ∧ (unref_completion (virtio_gpu_object_create env vgdev params fence).vgdev
              bo).2.mapped = 0
        ∧ (unref_completion (virtio_gpu_object_create env vgdev params fence).vgdev
              bo).2.pages = none
        ∧ (unref_completion (virtio_gpu_object_create env vgdev params fence).vgdev
              bo).2.freed = true
        ∧ (unref_completion (virtio_gpu_object_create env vgdev params fence).vgdev
              bo).1.resource_ida = vgdev.resource_ida
        ∧ ∃ delta,
          (unref_completion (virtio_gpu_object_create env vgdev params fence).vgdev bo).1.trace
              = vgdev.trace ++ delta
            ∧ delta.countP Ev.is_pin = (if env.pin_ret < 0 then 0 else 1)
            ∧ delta.countP Ev.is_unpin = delta.countP Ev.is_pin
            ∧ delta.countP Ev.is_get_sg_table
                = (if env.pin_ret < 0 ∨ env.sg_table = none then 0 else 1)
            ∧ delta.countP Ev.is_sg_free_table = delta.countP Ev.is_get_sg_table
            ∧ delta.countP Ev.is_dma_map
                = (if env.pin_ret < 0 ∨ env.sg_table = none ∨ vgdev.dma_quirk = true
                      ∨ env.dma_map_ret ≠ 0 then 0 else 1)
            ∧ delta.countP Ev.is_dma_unmap = delta.countP Ev.is_dma_map
            ∧ delta.countP Ev.is_put = 1
            ∧ Ev.resource_id_put b.hw_res_handle ∈ delta
            ∧ delta.countP Ev.is_shmem_free = 1 := by
  obtain ⟨_, _, hdq, hb, _, _, _⟩ := create_prologue_ok_facts env vgdev _ fence objs d b hpro
  have hpages : b.pages = none := by rw [hb]; rfl
  have hmapped : b.mapped = 0 := by rw [hb]; rfl
  have hpin : b.pin_count = 0 := by rw [hb]; rfl
  by_cases hp : env.pin_ret < 0
  · -- pin failure
    have hi := shmem_init_pin_fail env
      (d.log (Ev.cmd (create_cmd params.virgl b.hw_res_handle objs fence)))
      { b with created := true } hp
    obtain ⟨h1, h2, h3, h4, h5, h6, h7, h8⟩ := attach_failure_sequence env vgdev params fence
      objs d b hpro (-EINVAL) none none [] { b with created := true } hi (by simp [EINVAL])
    refine ⟨by rw [h1]; simp [EINVAL], h2, _, h3, h4, h5, ?_, ?_, ?_, ?_, h8, _, h6, ?_⟩
    · rw [h7]; simp [torn_down, hpages, hpin]
    · rw [h7]; simp [torn_down, hpages, hmapped]
    · rw [h7]; simp [torn_down, hpages]
    · rw [h7]
    · cases vgdev.workaround <;> cases fence <;> cases params.virgl <;>
        simp [prologue_events, put_events, teardown_events, create_cmd, hp, hpages, Ev.is_put,
            Ev.is_pin, Ev.is_unpin, Ev.is_get_sg_table, Ev.is_sg_free_table, Ev.is_dma_map,
            Ev.is_dma_unmap, Ev.is_shmem_free]
  · cases ht : env.sg_table with
    | none =>
      have hi : virtio_gpu_object_shmem_init env
            (d.log (Ev.cmd (create_cmd params.virgl b.hw_res_handle objs fence)))
            { b with created := true }
          = { ret := -EINVAL, ents := none, nents := none,
              vgdev := { d with trace := d.trace
                ++ (Ev.cmd (create_cmd params.virgl b.hw_res_handle objs fence)
                      :: [Ev.pin, Ev.unpin]) },
              bo := { b with created := true } } :=
        shmem_init_no_table_fresh env vgdev params fence objs d b hpro hp ht
      obtain ⟨h1, h2, h3, h4, h5, h6, h7, h8⟩ := attach_failure_sequence env vgdev params fence
        objs d b hpro (-EINVAL) none none [Ev.pin, Ev.unpin] { b with created := true } hi
        (by simp [EINVAL])
      refine ⟨by rw [h1]; simp [EINVAL], h2, _, h3, h4, h5, ?_, ?_, ?_, ?_, h8, _, h6, ?_⟩
      · rw [h7]; simp [torn_down, hpages, hpin]
      · rw [h7]; simp [torn_down, hpages, hmapped]
      · rw [h7]; simp [torn_down, hpages]
      · rw [h7]
      · cases vgdev.workaround <;> cases fence <;> cases params.virgl <;>
          simp [prologue_events, put_events, teardown_events, create_cmd, hp, hpages, Ev.is_put,
            Ev.is_pin, Ev.is_unpin, Ev.is_get_sg_table, Ev.is_sg_free_table, Ev.is_dma_map,
            Ev.is_dma_unmap, Ev.is_shmem_free]
    | some t =>
      have hcq : (d.log (Ev.cmd (create_cmd params.virgl b.hw_res_handle objs fence))).dma_quirk
          = vgdev.dma_quirk := hdq
      cases hq : vgdev.dma_quirk with
      | true =>
        have hk : env.kvmalloc_ok = false := by
          rcases hfail with h | h | h | h
          · exact absurd h hp
          · rw [ht] at h; cases h
          · rw [hq] at h; cases h.1
          · exact h
        have hi : virtio_gpu_object_shmem_init env
              (d.log (Ev.cmd (create_cmd params.virgl b.hw_res_handle objs fence)))
              { b with created := true }
            = { ret := -ENOMEM, ents := none, nents := some t.orig_nents,
                vgdev := { d with trace := d.trace
                  ++ (Ev.cmd (create_cmd params.virgl b.hw_res_handle objs fence)
                        :: [Ev.pin, Ev.get_sg_table]) },
                bo := { b with created := true, pages := some t,
                               pin_count := b.pin_count + 1 } } := by
          rw [shmem_init_quirk env _ _ t hp ht (hcq.trans hq), hk]
          simp [Device.log]
        obtain ⟨h1, h2, h3, h4, h5, h6, h7, h8⟩ := attach_failure_sequence env vgdev params
          fence objs d b hpro (-ENOMEM) none (some t.orig_nents) [Ev.pin, Ev.get_sg_table] _ hi
          (by simp [ENOMEM])
        refine ⟨by rw [h1]; simp [ENOMEM], h2, _, h3, h4, h5, ?_, ?_, ?_, ?_, h8, _, h6, ?_⟩
        · rw [h7]; simp [torn_down, hpin]
        · rw [h7]; simp [torn_down]
        · rw [h7]; simp [torn_down]
        · rw [h7]
        · cases vgdev.workaround <;> cases fence <;> cases params.virgl <;>
            simp [prologue_events, put_events, teardown_events, create_cmd, hp, hpages, Ev.is_put,
            Ev.is_pin, Ev.is_unpin, Ev.is_get_sg_table, Ev.is_sg_free_table, Ev.is_dma_map,
            Ev.is_dma_unmap, Ev.is_shmem_free, ht, hmapped]
      | false =>
        by_cases hm : env.dma_map_ret = 0
        · have hk : env.kvmalloc_ok = false := by
            rcases hfail with h | h | h | h
            · exact absurd h hp
            · rw [ht] at h; cases h
            · exact absurd hm h.2
            · exact h
          have hpos : env.dma_segs.length ≠ 0 := Nat.pos_iff_ne_zero.1 (hseg hm)
          have hi : virtio_gpu_object_shmem_init env
                (d.log (Ev.cmd (create_cmd params.virgl b.hw_res_handle objs fence)))
                { b with created := true }
              = { ret := -ENOMEM, ents := none, nents := some env.dma_segs.length,
                  vgdev := { d with trace := d.trace
                    ++ (Ev.cmd (create_cmd params.virgl b.hw_res_handle objs fence)
                          :: [Ev.pin, Ev.get_sg_table, Ev.dma_map]) },
                  bo := { b with
                    created := true,
                    pages := some { t with nents := env.dma_segs.length,
                                           sgl := write_dma t.sgl env.dma_segs },
                    mapped := env.dma_segs.length, pin_count := b.pin_count + 1 } } := by
            rw [shmem_init_dma env _ _ t hp ht (hcq.trans hq) hm, hk]
            simp [Device.log]
          obtain ⟨h1, h2, h3, h4, h5, h6, h7, h8⟩ := attach_failure_sequence env vgdev params
            fence objs d b hpro (-ENOMEM) none (some env.dma_segs.length)
            [Ev.pin, Ev.get_sg_table, Ev.dma_map] _ hi (by simp [ENOMEM])
          refine ⟨by rw [h1]; simp [ENOMEM], h2, _, h3, h4, h5, ?_, ?_, ?_, ?_, h8, _, h6, ?_⟩
          · rw [h7]; simp [torn_down, hpin]
          · rw [h7]; simp [torn_down]
          · rw [h7]; simp [torn_down]
          · rw [h7]
          · cases vgdev.workaround <;> cases fence <;> cases params.virgl <;>
              simp [prologue_events, put_events, teardown_events, create_cmd, hp, hpages, Ev.is_put,
            Ev.is_pin, Ev.is_unpin, Ev.is_get_sg_table, Ev.is_sg_free_table, Ev.is_dma_map,
            Ev.is_dma_unmap, Ev.is_shmem_free, ht, hm, hpos]
        · have hi : virtio_gpu_object_shmem_init env
                (d.log (Ev.cmd (create_cmd params.virgl b.hw_res_handle objs fence)))
                { b with created := true }
              = { ret := env.dma_map_ret, ents := none, nents := none,
                  vgdev := { d with trace := d.trace
                    ++ (Ev.cmd (create_cmd params.virgl b.hw_res_handle objs fence)
                          :: [Ev.pin, Ev.get_sg_table]) },
                  bo := { b with created := true, pages := some t,
                                 pin_count := b.pin_count + 1 } } := by
            rw [shmem_init_map_fail env _ _ t hp ht (hcq.trans hq) hm]
            simp [Device.log]
          obtain ⟨h1, h2, h3, h4, h5, h6, h7, h8⟩ := attach_failure_sequence env vgdev params
            fence objs d b hpro env.dma_map_ret none none [Ev.pin, Ev.get_sg_table] _ hi hm
          refine ⟨by rw [h1]; exact hm, h2, _, h3, h4, h5, ?_, ?_, ?_, ?_, h8, _, h6, ?_⟩
          · rw [h7]; simp [torn_down, hpin]
          · rw [h7]; simp [torn_down]
          · rw [h7]; simp [torn_down]
          · rw [h7]
          · cases vgdev.workaround <;> cases fence <;> cases params.virgl <;>
              simp [prologue_events, put_events, teardown_events, create_cmd, hp, hpages, Ev.is_put,
            Ev.is_pin, Ev.is_unpin, Ev.is_get_sg_table, Ev.is_sg_free_table, Ev.is_dma_map,
            Ev.is_dma_unmap, Ev.is_shmem_free, ht, hm, hmapped]

/-- C10 at a concrete call whose entry-array allocation fails, DMA API in
use. -/
theorem C10_attach_failure_balance_witness :
    (virtio_gpu_object_create { env_ok with kvmalloc_ok := false } (dev0 false false)
        ⟨100, true, false⟩ true).ret ≠ 0
      ∧ (virtio_gpu_object_create { env_ok with kvmalloc_ok := false } (dev0 false false)
          ⟨100, true, false⟩ true).bo_ptr = none :=
  ⟨(C10_attach_failure_balance { env_ok with kvmalloc_ok := false } (dev0 false false)
      ⟨100, true, false⟩ true _ _ _ rfl (by decide) (Or.inr (Or.inr (Or.inr rfl)))).1,
   (C10_attach_failure_balance { env_ok with kvmalloc_ok := false } (dev0 false false)
      ⟨100, true, false⟩ true _ _ _ rfl (by decide) (Or.inr (Or.inr (Or.inr rfl)))).2.1⟩

/-- An error result of the prologue carries a null `*bo_ptr`. -/
theorem create_prologue_error_bo_ptr (env : Env) (vgdev : Device) (P : Params) (fence : Bool)
    (r : CreateResult) (h : create_prologue env vgdev P fence = Except.error r) :
    r.bo_ptr = none := by
  rcases create_prologue_cases env vgdev P fence with
    ⟨e, _, hp⟩ | ⟨_, e, _, _, hp⟩ | ⟨_, hd, d', _, hcase⟩
  · rw [h] at hp; cases hp; rfl
  · rw [h] at hp; cases hp; rfl
  · rcases hcase with ⟨_, _, hp⟩ | ⟨_, _, _, hp⟩ | ⟨_, _, _, hp⟩ | ⟨_, hp⟩
    · rw [h] at hp; cases hp; rfl
    · rw [h] at hp; cases hp; rfl
    · rw [h] at hp; cases hp
    · rw [h] at hp; cases hp

/-- A create that hands an object to its caller went through the whole
function: the prologue reached the host create command, attach returned 0, the
attach command was sent, and the object handed out is the one attach left. -/
theorem create_success (env : Env) (vgdev : Device) (params : Params) (fence : Bool)
    (bo : Obj)
    (hsucc : (virtio_gpu_object_create env vgdev params fence).bo_ptr = some bo) :
    ∃ (objs : Bool) (d : Device) (b : Obj),
      create_prologue env vgdev { params with size := roundup params.size PAGE_SIZE } fence
          = Except.ok (objs, d, b)
        ∧ (virtio_gpu_object_shmem_init env
            (d.log (Ev.cmd (create_cmd params.virgl b.hw_res_handle objs fence)))
            { b with created := true }).ret = 0
        ∧ bo = (virtio_gpu_object_shmem_init env
            (d.log (Ev.cmd (create_cmd params.virgl b.hw_res_handle objs fence)))
            { b with created := true }).bo
        ∧ (virtio_gpu_object_create env vgdev params fence).ret = 0
        ∧ (virtio_gpu_object_create env vgdev params fence).vgdev
            = (virtio_gpu_object_shmem_init env
                (d.log (Ev.cmd (create_cmd params.virgl b.hw_res_handle objs fence)))
                { b with created := true }).vgdev.log
              (Ev.cmd (Cmd.attach b.hw_res_handle
                ((virtio_gpu_object_shmem_init env
                  (d.log (Ev.cmd (create_cmd params.virgl b.hw_res_handle objs fence)))
                  { b with created := true }).ents.getD [])
                ((virtio_gpu_object_shmem_init env
                  (d.log (Ev.cmd (create_cmd params.virgl b.hw_res_handle objs fence)))
                  { b with created := true }).nents.getD 0))) := by
  cases hpro : create_prologue env vgdev { params with size := roundup params.size PAGE_SIZE }
      fence with
  | error r =>
    have h1 : virtio_gpu_object_create env vgdev params fence = r := by
      simp only [virtio_gpu_object_create, hpro]
    rw [h1, create_prologue_error_bo_ptr _ _ _ _ r hpro] at hsucc
    cases hsucc
  | ok x =>
    obtain ⟨objs, d, b⟩ := x
    have h1 := create_of_prologue_ok env vgdev params fence objs d b hpro
    rw [create_epilogue_spec] at h1
    dsimp only at h1
    refine ⟨objs, d, b, rfl, ?_⟩
    rw [h1] at hsucc ⊢
    by_cases hr : (virtio_gpu_object_shmem_init env
        (d.log (Ev.cmd (create_cmd params.virgl b.hw_res_handle objs fence)))
        { b with created := true }).ret = 0
    · rw [if_neg (by simpa using hr)] at hsucc ⊢
      dsimp only at hsucc ⊢
      exact ⟨hr, (Option.some.inj hsucc).symm, rfl, rfl⟩
    · rw [if_pos hr] at hsucc
      cases hsucc

/-- A successful create with a fence, then destroy, then the completion
callback of the unref command, for an attach that left the trace `idelta` and
the object `ibo`. -/
theorem success_sequence (env : Env) (vgdev : Device) (params : Params)
    (objs : Bool) (d : Device) (b : Obj)
    (hpro : create_prologue env vgdev { params with size := roundup params.size PAGE_SIZE } true
      = Except.ok (objs, d, b))
    (ents : Option (List (Option MemEntry))) (n : Option Nat) (idelta : List Ev) (ibo : Obj)
    (hi : virtio_gpu_object_shmem_init env
        (d.log (Ev.cmd (create_cmd params.virgl b.hw_res_handle objs true)))
        { b with created := true }
      = { ret := 0, ents := ents, nents := n,
          vgdev := { d with trace := d.trace
            ++ (Ev.cmd (create_cmd params.virgl b.hw_res_handle objs true) :: idelta) },
          bo := ibo }) :
    ibo.created = true ∧ ibo.hw_res_handle = b.hw_res_handle ∧ ibo.freed = false
      ∧ (vgdev.workaround = false →
          u32_dec b.hw_res_handle
            ∈ (virtio_gpu_object_create env vgdev params true).vgdev.resource_ida
          ∧ u32_dec b.hw_res_handle ∉ vgdev.resource_ida)
      ∧ virtio_gpu_free_object (virtio_gpu_object_create env vgdev params true).vgdev ibo
          = ({ (virtio_gpu_object_create env vgdev params true).vgdev with
                trace := (virtio_gpu_object_create env vgdev params true).vgdev.trace
                  ++ [Ev.cmd (Cmd.unref b.hw_res_handle), Ev.notify] }, ibo)
      ∧ (unref_completion
            (virtio_gpu_free_object (virtio_gpu_object_create env vgdev params true).vgdev
              ibo).1 ibo).1.trace
          = (virtio_gpu_free_object (virtio_gpu_object_create env vgdev params true).vgdev
              ibo).1.trace
            ++ put_events vgdev.workaround b.hw_res_handle ++ teardown_events ibo
            ++ [Ev.shmem_free_object]
      ∧ (unref_completion
            (virtio_gpu_free_object (virtio_gpu_object_create env vgdev params true).vgdev
              ibo).1 ibo).2 = { (torn_down ibo) with freed := true }
      ∧ (unref_completion
            (virtio_gpu_free_object (virtio_gpu_object_create env vgdev params true).vgdev
              ibo).1 ibo).1.resource_ida = vgdev.resource_ida
      ∧ (unref_completion
            (virtio_gpu_free_object (virtio_gpu_object_create env vgdev params true).vgdev
              ibo).1 ibo).1.trace
          = vgdev.trace
            ++ (prologue_events vgdev.workaround true (roundup params.size PAGE_SIZE)
                  b.hw_res_handle
                ++ (Ev.cmd (create_cmd params.virgl b.hw_res_handle objs true) :: idelta)
                ++ [Ev.cmd (Cmd.attach b.hw_res_handle (ents.getD []) (n.getD 0)),
                    Ev.cmd (Cmd.unref b.hw_res_handle), Ev.notify]
                ++ put_events vgdev.workaround b.hw_res_handle
                ++ teardown_events ibo ++ [Ev.shmem_free_object]) := by
  obtain ⟨_, hw, _, hb, htr, hida1, hida2⟩ :=
    create_prologue_ok_facts env vgdev _ true objs d b hpro
  obtain ⟨_, _, _, _, hh, hcr, hsh, _, hfr⟩ := shmem_init_preserves env
    (d.log (Ev.cmd (create_cmd params.virgl b.hw_res_handle objs true)))
    { b with created := true }
  rw [hi] at hh hcr hsh hfr
  have hh' : ibo.hw_res_handle = b.hw_res_handle := hh
  have hcr' : ibo.created = true := hcr
  have hsh' : ibo.is_shmem_funcs = true := by
    have : ibo.is_shmem_funcs = b.is_shmem_funcs := hsh
    rw [this, hb]; rfl
  have hfr' : ibo.freed = false := by
    have : ibo.freed = b.freed := hfr
    rw [this, hb]; rfl
  have hcreate : virtio_gpu_object_create env vgdev params true
      = { ret := 0, bo_ptr := some ibo, bo := some ibo,
          vgdev := { d with trace := d.trace
            ++ (Ev.cmd (create_cmd params.virgl b.hw_res_handle objs true) :: idelta)
            ++ [Ev.cmd (Cmd.attach b.hw_res_handle (ents.getD []) (n.getD 0))] },
          params := { params with size := roundup params.size PAGE_SIZE } } := by
    rw [create_of_prologue_ok env vgdev params true objs d b hpro, create_epilogue_spec]
    dsimp only
    rw [hi]
    simp [Device.log]
  rw [hcreate]
  dsimp only
  rw [free_object_created _ ibo hcr', hh']
  dsimp only
  have hida : vgdev.workaround = false →
      u32_dec b.hw_res_handle ∈ d.resource_ida
        ∧ u32_dec b.hw_res_handle ∉ vgdev.resource_ida := by
    intro hvw
    obtain ⟨h1, h2, _⟩ := hida2 hvw
    exact ⟨by rw [h1]; exact List.mem_cons_self _ _, h2⟩
  refine ⟨hcr', rfl, hfr', hida, rfl, ?_, ?_, ?_, ?_⟩
  · rw [unref_completion, cleanup_object_spec]
    simp only [cleanup_events, hsh', if_true, hw, hh', List.append_assoc]
  · rw [unref_completion, cleanup_object_spec]
    simp only [hsh', if_true]
  · rw [unref_completion, cleanup_object_spec]
    dsimp only
    rw [hw, hh']
    cases hvw : vgdev.workaround with
    | true => simpa using hida1 hvw
    | false =>
      obtain ⟨h1, h2, _⟩ := hida2 hvw
      simp only [Bool.false_eq_true, if_false]
      rw [h1, ida_free_cons_self _ _ h2]
  · rw [unref_completion, cleanup_object_spec]
    simp only [cleanup_events, hsh', if_true, hw, hh', htr, List.append_assoc,
      List.cons_append, List.nil_append]

/-- C2: for every object handed out by `virtio_gpu_object_create` called with a
fence: the object is `created`, pinned once, has its table, and under the
reclaiming strategy its handle's index is in the pool. A following destroy only
sends the unref command and a notify: the object (pin count, table, `mapped`)
and the handle allocator are as before. The completion callback then runs
`virtio_gpu_cleanup_object`, whose trace is, in order: the handle release, the
unmap (only when `mapped` is set), the table free, the unpin, the buffer free.
After it the object is not mapped, has no table, pin count 0, is freed, and the
pool is as before the create. Over the whole sequence there is one handle
release, one unpin for the one pin, one table free, one buffer free and at
most one unmap. -/
theorem C2_deferred_cleanup (env : Env) (vgdev : Device) (params : Params) (bo : Obj)
    (hsucc : (virtio_gpu_object_create env vgdev params true).bo_ptr = some bo) :
    (virtio_gpu_object_create env vgdev params true).ret = 0
      ∧ bo.created = true ∧ bo.freed = false ∧ bo.pin_count = 1 ∧ bo.pages ≠ none
      ∧ (vgdev.workaround = false →
          u32_dec bo.hw_res_handle
            ∈ (virtio_gpu_object_create env vgdev params true).vgdev.resource_ida)
      ∧ virtio_gpu_free_object (virtio_gpu_object_create env vgdev params true).vgdev bo
          = ({ (virtio_gpu_object_create env vgdev params true).vgdev with
                trace := (virtio_gpu_object_create env vgdev params true).vgdev.trace
                  ++ [Ev.cmd (Cmd.unref bo.hw_res_handle), Ev.notify] }, bo)
      ∧ (unref_completion
            (virtio_gpu_free_object (virtio_gpu_object_create env vgdev params true).vgdev
              bo).1 bo).1.trace
          = (virtio_gpu_free_object (virtio_gpu_object_create env vgdev params true).vgdev
              bo).1.trace
            ++ put_events vgdev.workaround bo.hw_res_handle
            ++ ((if bo.mapped ≠ 0 then [Ev.dma_unmap] else [])
                ++ [Ev.sg_free_table, Ev.kfree_pages, Ev.unpin])
            ++ [Ev.shmem_free_object]
      ∧ (unref_completion
            (virtio_gpu_free_object (virtio_gpu_object_create env vgdev params true).vgdev
              bo).1 bo).2
          = { bo with mapped := 0, pages := none, pin_count := 0, freed := true }
      ∧ (unref_completion
            (virtio_gpu_free_object (virtio_gpu_object_create env vgdev params true).vgdev
              bo).1 bo).1.resource_ida = vgdev.resource_ida
      ∧ (vgdev.workaround = false →
          u32_dec bo.hw_res_handle ∉ (unref_completion
            (virtio_gpu_free_object (virtio_gpu_object_create env vgdev params true).vgdev
              bo).1 bo).1.resource_ida)
      ∧ ∃ delta,
          (unref_completion
            (virtio_gpu_free_object (virtio_gpu_object_create env vgdev params true).vgdev
              bo).1 bo).1.trace = vgdev.trace ++ delta
          ∧ delta.countP Ev.is_put = 1 ∧ delta.countP Ev.is_pin = 1
          ∧ delta.countP Ev.is_unpin = 1 ∧ delta.countP Ev.is_sg_free_table = 1
          ∧ delta.countP Ev.is_shmem_free = 1
          ∧ delta.countP Ev.is_dma_unmap = (if bo.mapped ≠ 0 then 1 else 0) := by
  obtain ⟨objs, d, b, hpro, hret, hbo, hret', _⟩ :=
    create_success env vgdev params true bo hsucc
  obtain ⟨hp, ⟨t, ht⟩, hm, hk⟩ := shmem_init_ok _ _ _ hret
  obtain ⟨_, _, hdq, hb, _, _, _⟩ := create_prologue_ok_facts env vgdev _ true objs d b hpro
  have hmapped : b.mapped = 0 := by rw [hb]; rfl
  have hpin : b.pin_count = 0 := by rw [hb]; rfl
  have hcq : (d.log (Ev.cmd (create_cmd params.virgl b.hw_res_handle objs true))).dma_quirk
      = vgdev.dma_quirk := hdq
  cases hq : vgdev.dma_quirk with
  | true =>
    have hi : virtio_gpu_object_shmem_init env
          (d.log (Ev.cmd (create_cmd params.virgl b.hw_res_handle objs true)))
          { b with created := true }
        = { ret := 0,
            ents := some (fill_ents ent_of_sg (t.sgl.take t.orig_nents) 0
              (List.replicate t.orig_nents none)),
            nents := some t.orig_nents,
            vgdev := { d with trace := d.trace
              ++ (Ev.cmd (create_cmd params.virgl b.hw_res_handle objs true)
                    :: [Ev.pin, Ev.get_sg_table, Ev.kvmalloc_array t.orig_nents]) },
            bo := { b with created := true, pages := some t, pin_count := b.pin_count + 1 } } := by
      rw [shmem_init_quirk env _ _ t hp ht (hcq.trans hq), hk]
      simp [Device.log]
    rw [hi] at hbo
    subst hbo
    obtain ⟨h1, h2, h3, h4, h5, h6, h7, h8, h9⟩ :=
      success_sequence env vgdev params objs d b hpro _ _ _ _ hi
    refine ⟨hret', h1, h3, by simp [hpin], by simp, fun hvw => (h4 hvw).1, h5, ?_, ?_, h8,
      ?_, _, h9, ?_⟩
    · rw [h6]; simp [teardown_events, hmapped]
    · rw [h7]; simp [torn_down, hpin]
    · intro hvw; rw [h8]; exact (h4 hvw).2
    · cases vgdev.workaround <;> cases params.virgl <;>
        simp [prologue_events, put_events, teardown_events, create_cmd, hmapped, Ev.is_put,
          Ev.is_pin, Ev.is_unpin, Ev.is_sg_free_table, Ev.is_dma_unmap, Ev.is_shmem_free]
  | false =>
    have hi : virtio_gpu_object_shmem_init env
          (d.log (Ev.cmd (create_cmd params.virgl b.hw_res_handle objs true)))
          { b with created := true }
        = { ret := 0,
            ents := some (fill_ents ent_of_dma_sg
              ((write_dma t.sgl env.dma_segs).take env.dma_segs.length) 0
              (List.replicate env.dma_segs.length none)),
            nents := some env.dma_segs.length,
            vgdev := { d with trace := d.trace
              ++ (Ev.cmd (create_cmd params.virgl b.hw_res_handle objs true)
                    :: [Ev.pin, Ev.get_sg_table, Ev.dma_map,
                        Ev.kvmalloc_array env.dma_segs.length]) },
            bo := { b with
              created := true,
              pages := some { t with nents := env.dma_segs.length,
                                     sgl := write_dma t.sgl env.dma_segs },
              mapped := env.dma_segs.length, pin_count := b.pin_count + 1 } } := by
      rw [shmem_init_dma env _ _ t hp ht (hcq.trans hq) (hm (hcq.trans hq)), hk]
      simp [Device.log]
    rw [hi] at hbo
    subst hbo
    obtain ⟨h1, h2, h3, h4, h5, h6, h7, h8, h9⟩ :=
      success_sequence env vgdev params objs d b hpro _ _ _ _ hi
    refine ⟨hret', h1, h3, by simp [hpin], by simp, fun hvw => (h4 hvw).1, h5, ?_, ?_, h8,
      ?_, _, h9, ?_⟩
    · rw [h6]; simp [teardown_events]
    · rw [h7]; simp [torn_down, hpin]
    · intro hvw; rw [h8]; exact (h4 hvw).2
    · by_cases hz : env.dma_segs.length = 0 <;>
        cases vgdev.workaround <;> cases params.virgl <;>
        simp [prologue_events, put_events, teardown_events, create_cmd, hz, Ev.is_put,
          Ev.is_pin, Ev.is_unpin, Ev.is_sg_free_table, Ev.is_dma_unmap, Ev.is_shmem_free]

/-- C2 at a concrete create with a fence, reclaiming strategy, DMA API in
use. -/
theorem C2_deferred_cleanup_witness :
    (unref_completion
        (virtio_gpu_free_object
          (virtio_gpu_object_create env_ok (dev0 false false) ⟨100, true, false⟩ true).vgdev
          { virtio_gpu_create_object with
            hw_res_handle := 1, created := true, dumb := true,
            pages := some { sgl := [⟨4096, 4096, 65536, 8192⟩, ⟨8192, 4096, 0, 0⟩], nents := 1,
                            orig_nents := 2 },
            mapped := 1, pin_count := 1 }).1
        { virtio_gpu_create_object with
            hw_res_handle := 1, created := true, dumb := true,
            pages := some { sgl := [⟨4096, 4096, 65536, 8192⟩, ⟨8192, 4096, 0, 0⟩], nents := 1,
                            orig_nents := 2 },
            mapped := 1, pin_count := 1 }).1.resource_ida = [] :=
  (C2_deferred_cleanup env_ok (dev0 false false) ⟨100, true, false⟩ _ rfl).2.2.2.2.2.2.2.2.2.1
end VirtioGpu
